import Mathlib

/-!
Verification development for the traffic-strategy dashboard repository.

The numerical core of the repository is shallowly embedded below:

* `NetworkSim`   — the grid-network simulator (source: the network simulation
  module, `src/unnamed/part_001`).  All of its arithmetic is `+ * min max floor`
  and comparisons, so it is embedded over `ℚ` and stays computable; the calls
  to the global random generator become explicit arguments (streams of draws).
* `StatsTs`      — the statistics module `src/statisticalAnalysis.ts`
  (descriptive stats, confidence intervals, Welch t-test, incomplete beta).
* `HypTests`     — the second statistics module `src/HypothesisTests.tsx`
  (sample generator, t-test with erf/tanh CDF approximations).
* `StatsTsx`     — the baseline/scenario computation of
  `src/StatisticalAnalysis.tsx` (its `generateDistributionData`).

JS `number` is modelled as exact arithmetic (`ℚ` where the code is rational,
`ℝ` where it uses `sqrt`/`exp`/`log`/`tanh`/`cos`).  Where the JS expression
`Math.exp(a*Math.log(x) + b*Math.log(1-x))` is evaluated at the endpoints of
`[0,1]`, IEEE arithmetic yields `Math.exp(-Infinity) = 0`; the embedding uses
the real power `x ^ a * (1-x) ^ b` (`Real.rpow`), which agrees with that IEEE
limit behaviour at the endpoints for positive exponents and with
`exp (a * log x + b * log (1-x))` in the interior.
-/

namespace NetworkSim

/-- Signal colours, source union type red | yellow | green. -/
inductive Signal
  | red
  | yellow
  | green
deriving DecidableEq, Repr

/-- Connection directions, source union type north | east | south | west. -/
inductive Direction
  | north
  | east
  | south
  | west
deriving DecidableEq, Repr

/-- Control strategies, source union type fixed-time | rule-based | rl-based
(the type of `SimulationConfig.strategy`). -/
inductive Strategy
  | fixedTime
  | ruleBased
  | rlBased
deriving DecidableEq, Repr

/-- Source interface `IntersectionState` (all `number` fields over `ℚ`). -/
structure IntersectionState where
  id : String
  name : String
  x : ℕ
  y : ℕ
  northFlow : ℚ
  eastFlow : ℚ
  southFlow : ℚ
  westFlow : ℚ
  northQueue : ℚ
  eastQueue : ℚ
  southQueue : ℚ
  westQueue : ℚ
  northSignal : Signal
  eastSignal : Signal
  southSignal : Signal
  westSignal : Signal
  totalWaitingTime : ℚ
  totalThroughput : ℚ
  efficiency : ℚ
deriving DecidableEq, Repr

/-- Source interface `NetworkConnection`; the JS fields `from`/`to` are named
`fromId`/`toId` here because `from` is a Lean keyword. -/
structure NetworkConnection where
  fromId : String
  toId : String
  direction : Direction
  flowInfluence : ℚ
deriving DecidableEq, Repr

/-- Source interface `NetworkState`. -/
structure NetworkState where
  intersections : List IntersectionState
  connections : List NetworkConnection
  time : ℕ
  totalVehicles : ℚ
  networkEfficiency : ℚ
  averageWaitingTime : ℚ
deriving DecidableEq, Repr

/-- Source interface `SimulationConfig`. -/
structure SimulationConfig where
  gridSize : ℕ
  simulationTime : ℕ
  strategy : Strategy
  trafficIntensity : ℚ
  incidentEnabled : Bool
  incidentLocation : Option String
deriving DecidableEq, Repr

/-- The id string built by the source: `intersection_x_y` with template braces. -/
def idStr (x y : ℕ) : String :=
  "intersection_" ++ toString x ++ "_" ++ toString y

/-- Source `initializeNetwork`.  The four `Math.random()` calls per grid cell
become the stream `rnd`; the cell visited at loop position `k` (outer loop `x`,
inner loop `y`, so `k = x * gridSize + y`) consumes `rnd (4*k) .. rnd (4*k+3)`,
each scaled by 20 as in the source. -/
def initializeNetwork (gridSize : ℕ) (rnd : ℕ → ℚ) : List IntersectionState :=
  (List.range gridSize).flatMap fun x =>
    (List.range gridSize).map fun y =>
      let k := x * gridSize + y
      { id := idStr x y
        name := "Intersection (" ++ toString (x + 1) ++ ", " ++ toString (y + 1) ++ ")"
        x := x
        y := y
        northFlow := rnd (4 * k) * 20
        eastFlow := rnd (4 * k + 1) * 20
        southFlow := rnd (4 * k + 2) * 20
        westFlow := rnd (4 * k + 3) * 20
        northQueue := 0
        eastQueue := 0
        southQueue := 0
        westQueue := 0
        northSignal := .red
        eastSignal := .green
        southSignal := .red
        westSignal := .green
        totalWaitingTime := 0
        totalThroughput := 0
        efficiency := 0 }

/-- Source `createNetworkConnections`: for each cell, push a north connection
when `y > 0`, an east one when `x < gridSize - 1`, a south one when
`y < gridSize - 1`, and a west one when `x > 0`, all with flowInfluence 0.3. -/
def createNetworkConnections (gridSize : ℕ) : List NetworkConnection :=
  (List.range gridSize).flatMap fun x =>
    (List.range gridSize).flatMap fun y =>
      (if 0 < y then [{ fromId := idStr x y, toId := idStr x (y - 1), direction := .north, flowInfluence := 0.3 }] else []) ++
      (if x < gridSize - 1 then [{ fromId := idStr x y, toId := idStr (x + 1) y, direction := .east, flowInfluence := 0.3 }] else []) ++
      (if y < gridSize - 1 then [{ fromId := idStr x y, toId := idStr x (y + 1), direction := .south, flowInfluence := 0.3 }] else []) ++
      (if 0 < x then [{ fromId := idStr x y, toId := idStr (x - 1) y, direction := .west, flowInfluence := 0.3 }] else [])

/-- Source `updateSignalStrategy`.  The fixed-time branch computes
`Math.floor(intersection.totalWaitingTime / 30) % 2`; the branch test
`cycle === 0` is insensitive to the remainder convention (the JS truncated
remainder and `Int.emod` agree on being zero), so `Int.emod` is used. -/
def updateSignalStrategy (intersection : IntersectionState) (strategy : Strategy)
    (nsQueue ewQueue : ℚ) : IntersectionState :=
  match strategy with
  | .fixedTime =>
      let cycle : ℤ := ⌊intersection.totalWaitingTime / 30⌋ % 2
      if cycle = 0 then
        { intersection with northSignal := .green, southSignal := .green,
                            eastSignal := .red, westSignal := .red }
      else
        { intersection with northSignal := .red, southSignal := .red,
                            eastSignal := .green, westSignal := .green }
  | .ruleBased =>
      if nsQueue > ewQueue then
        { intersection with northSignal := .green, southSignal := .green,
                            eastSignal := .red, westSignal := .red }
      else
        { intersection with northSignal := .red, southSignal := .red,
                            eastSignal := .green, westSignal := .green }
  | .rlBased =>
      let totalQueue := intersection.northQueue + intersection.eastQueue +
        intersection.southQueue + intersection.westQueue
      let nsRatio := nsQueue / (totalQueue + 1)
      if nsRatio > 0.5 then
        { intersection with northSignal := .green, southSignal := .green,
                            eastSignal := .red, westSignal := .red }
      else
        { intersection with northSignal := .red, southSignal := .red,
                            eastSignal := .green, westSignal := .green }

/-- Source `simulateIntersectionStep`.  The four `Math.random()` calls become
the explicit draws `r1 .. r4`; `allIntersections` and `connections` are unused
parameters, exactly as in the source.  The mutation sequence of the source is
reproduced by the chain of lets. -/
def simulateIntersectionStep (intersection : IntersectionState)
    (config : SimulationConfig) (allIntersections : List IntersectionState)
    (connections : List NetworkConnection) (r1 r2 r3 r4 : ℚ) : IntersectionState :=
  let _ := allIntersections
  let _ := connections
  let nF := intersection.northFlow + r1 * config.trafficIntensity * 5
  let eF := intersection.eastFlow + r2 * config.trafficIntensity * 5
  let sF := intersection.southFlow + r3 * config.trafficIntensity * 5
  let wF := intersection.westFlow + r4 * config.trafficIntensity * 5
  let northCapacity : ℚ := if intersection.northSignal = .green then 8 else 0
  let eastCapacity : ℚ := if intersection.eastSignal = .green then 8 else 0
  let southCapacity : ℚ := if intersection.southSignal = .green then 8 else 0
  let westCapacity : ℚ := if intersection.westSignal = .green then 8 else 0
  let northThrough := min intersection.northQueue northCapacity
  let eastThrough := min intersection.eastQueue eastCapacity
  let southThrough := min intersection.southQueue southCapacity
  let westThrough := min intersection.westQueue westCapacity
  let nQ := max 0 (intersection.northQueue - northThrough) + nF
  let eQ := max 0 (intersection.eastQueue - eastThrough) + eF
  let sQ := max 0 (intersection.southQueue - southThrough) + sF
  let wQ := max 0 (intersection.westQueue - westThrough) + wF
  let throughput := intersection.totalThroughput +
    (northThrough + eastThrough + southThrough + westThrough)
  let waiting := intersection.totalWaitingTime + (nQ + eQ + sQ + wQ)
  let nsQueue := nQ + sQ
  let ewQueue := eQ + wQ
  let updated := updateSignalStrategy
    { intersection with
        northFlow := nF, eastFlow := eF, southFlow := sF, westFlow := wF,
        northQueue := nQ, eastQueue := eQ, southQueue := sQ, westQueue := wQ,
        totalThroughput := throughput, totalWaitingTime := waiting }
    config.strategy nsQueue ewQueue
  let totalQueue := nQ + eQ + sQ + wQ
  { updated with efficiency := throughput / (totalQueue + 1) }

/-- Lookup in the JS `Map` built by `new Map(updated.map(i => [i.id, i]))`:
`Map.set` overwrites, so the map holds the LAST list element with a given id. -/
def mapLookup : List IntersectionState → String → Option IntersectionState
  | [], _ => none
  | i :: rest, key =>
      match mapLookup rest key with
      | some j => some j
      | none => if i.id = key then some i else none

/-- In-place mutation of the object held by the JS map for `key`: update the
last element of the list with that id (earlier duplicates are shadowed copies
the map no longer references). -/
def updateLastId : List IntersectionState → String →
    (IntersectionState → IntersectionState) → List IntersectionState
  | [], _, _ => []
  | i :: rest, key, f =>
      if rest.any (fun j => j.id = key) then i :: updateLastId rest key f
      else if i.id = key then f i :: rest
      else i :: updateLastId rest key f

/-- One `connections.forEach` body of the source `applyNetworkFlowInfluence`:
when both endpoints resolve and the source signal for the connection direction
is green, add `min(queue * flowInfluence, 5)` to the opposite queue of the
destination. -/
def applyConnection (acc : List IntersectionState) (connection : NetworkConnection) :
    List IntersectionState :=
  match mapLookup acc connection.fromId, mapLookup acc connection.toId with
  | some fromIntersection, some _ =>
      match connection.direction with
      | .north =>
          if fromIntersection.northSignal = .green then
            let flowAmount := min (fromIntersection.northQueue * connection.flowInfluence) 5
            updateLastId acc connection.toId
              (fun t => { t with southQueue := t.southQueue + flowAmount })
          else acc
      | .east =>
          if fromIntersection.eastSignal = .green then
            let flowAmount := min (fromIntersection.eastQueue * connection.flowInfluence) 5
            updateLastId acc connection.toId
              (fun t => { t with westQueue := t.westQueue + flowAmount })
          else acc
      | .south =>
          if fromIntersection.southSignal = .green then
            let flowAmount := min (fromIntersection.southQueue * connection.flowInfluence) 5
            updateLastId acc connection.toId
              (fun t => { t with northQueue := t.northQueue + flowAmount })
          else acc
      | .west =>
          if fromIntersection.westSignal = .green then
            let flowAmount := min (fromIntersection.westQueue * connection.flowInfluence) 5
            updateLastId acc connection.toId
              (fun t => { t with eastQueue := t.eastQueue + flowAmount })
          else acc
  | _, _ => acc

/-- Source `applyNetworkFlowInfluence`: copy every intersection, then run the
`forEach` over the connections, mutating the copies through the id map. -/
def applyNetworkFlowInfluence (intersections : List IntersectionState)
    (connections : List NetworkConnection) : List IntersectionState :=
  connections.foldl applyConnection intersections

/-- The `state.intersections.map(simulateIntersectionStep ...)` of the source:
the intersection at array position `k` consumes the draws `rnd (4*k) ..
rnd (4*k+3)` of the per-tick random stream. -/
def stepIntersections (config : SimulationConfig) (all : List IntersectionState)
    (connections : List NetworkConnection) (rnd : ℕ → ℚ) :
    ℕ → List IntersectionState → List IntersectionState
  | _, [] => []
  | k, i :: rest =>
      simulateIntersectionStep i config all connections
        (rnd (4 * k)) (rnd (4 * k + 1)) (rnd (4 * k + 2)) (rnd (4 * k + 3)) ::
      stepIntersections config all connections rnd (k + 1) rest

/-- Source `simulateNetworkStep`: step every intersection, apply the network
flow influence, then recompute the aggregate metrics from the new list. -/
def simulateNetworkStep (state : NetworkState) (config : SimulationConfig)
    (connections : List NetworkConnection) (rnd : ℕ → ℚ) : NetworkState :=
  let stepped := stepIntersections config state.intersections connections rnd 0
    state.intersections
  let influenced := applyNetworkFlowInfluence stepped connections
  let totalWaitingTime := (influenced.map (fun i => i.totalWaitingTime)).sum
  let totalThroughput := (influenced.map (fun i => i.totalThroughput)).sum
  let totalVehicles := (influenced.map
    (fun i => i.northQueue + i.eastQueue + i.southQueue + i.westQueue)).sum
  { state with
      intersections := influenced
      time := state.time + 1
      totalVehicles := totalVehicles
      averageWaitingTime :=
        if 0 < influenced.length then totalWaitingTime / influenced.length else 0
      networkEfficiency :=
        if 0 < totalVehicles then totalThroughput / totalVehicles else 0 }

/-- The initial `NetworkState` assembled by `runNetworkSimulation` (and by the
viewer component) before any tick. -/
def initState (config : SimulationConfig) (rnd0 : ℕ → ℚ) : NetworkState :=
  { intersections := initializeNetwork config.gridSize rnd0
    connections := createNetworkConnections config.gridSize
    time := 0
    totalVehicles := 0
    networkEfficiency := 0
    averageWaitingTime := 0 }

/-- Iterate `simulateNetworkStep` `n` times from a state, as in the loop of
`runNetworkSimulation`; `rnd t` is the random stream consumed by tick `t`. -/
def simSteps (config : SimulationConfig) (connections : List NetworkConnection)
    (rnd : ℕ → ℕ → ℚ) (s : NetworkState) : ℕ → NetworkState
  | 0 => s
  | n + 1 => simulateNetworkStep (simSteps config connections rnd s n) config
      connections (rnd n)

end NetworkSim

/-- Source interface `CustomScenario` (from the scenario customizer module);
all numeric fields are exact rationals. -/
structure CustomScenario where
  name : String
  northFlow : ℚ
  eastFlow : ℚ
  southFlow : ℚ
  westFlow : ℚ
  incidentActive : Bool
  incidentSeverity : ℚ
  incidentLocation : String
  peakHourActive : Bool
  peakHourIntensity : ℚ
  congestionThreshold : ℚ
deriving DecidableEq, Repr

/-- Source union `StrategyType` of the two statistics components:
Fixed-time | Rule-based | RL-based. -/
inductive StrategyType
  | fixedTime
  | ruleBased
  | rlBased
deriving DecidableEq, Repr

namespace StatsTs

/-- Source interface `StatisticalResult`. -/
structure StatisticalResult where
  mean : ℝ
  median : ℝ
  stdDev : ℝ
  variance : ℝ
  min : ℝ
  max : ℝ
  q1 : ℝ
  q3 : ℝ
  iqr : ℝ
  skewness : ℝ
  kurtosis : ℝ

/-- Source interface `ConfidenceInterval`. -/
structure ConfidenceInterval where
  mean : ℝ
  lowerBound : ℝ
  upperBound : ℝ
  confidenceLevel : ℝ
  marginOfError : ℝ

/-- Fallback record, used only to state projections of an optional result. -/
def emptyCI : ConfidenceInterval :=
  { mean := 0, lowerBound := 0, upperBound := 0, confidenceLevel := 0, marginOfError := 0 }

/-- Source interface `HypothesisTestResult`. -/
structure HypothesisTestResult where
  testName : String
  testStatistic : ℝ
  pValue : ℝ
  isSignificant : Bool
  conclusion : String
  confidenceLevel : ℝ

open scoped Classical

/-- Source `calculatePercentile`.  `index % 1` in JS is the fractional part
for the non-negative indices that occur; array reads are modelled with
default 0 (all reads performed by the callers are in range). -/
noncomputable def calculatePercentile (sortedData : List ℝ) (percentile : ℝ) : ℝ :=
  let index := percentile / 100 * (sortedData.length - 1)
  let lower := ⌊index⌋
  let upper := ⌈index⌉
  let weight := index - ⌊index⌋
  if lower = upper then sortedData.getD lower.toNat 0
  else sortedData.getD lower.toNat 0 * (1 - weight) + sortedData.getD upper.toNat 0 * weight

/-- Source `calculateBasicStats`: empty input returns the all-zero record,
otherwise the descriptive statistics (population variance, divisor `n`).
`data.reduce((a,b) => a+b, 0)` is `List.sum`; the ascending numeric sort
`[...data].sort((a,b) => a-b)` is `List.insertionSort (le)`. -/
noncomputable def calculateBasicStats (data : List ℝ) : StatisticalResult :=
  if data.length = 0 then
    { mean := 0, median := 0, stdDev := 0, variance := 0, min := 0, max := 0,
      q1 := 0, q3 := 0, iqr := 0, skewness := 0, kurtosis := 0 }
  else
    let sorted := List.insertionSort (fun a b : ℝ => a ≤ b) data
    let n : ℝ := data.length
    let mean := data.sum / n
    let median :=
      if data.length % 2 = 0 then
        (sorted.getD (data.length / 2 - 1) 0 + sorted.getD (data.length / 2) 0) / 2
      else sorted.getD (data.length / 2) 0
    let variance := (data.map fun val => (val - mean) ^ 2).sum / n
    let stdDev := Real.sqrt variance
    let q1 := calculatePercentile sorted 25
    let q3 := calculatePercentile sorted 75
    { mean := mean
      median := median
      stdDev := stdDev
      variance := variance
      min := sorted.getD 0 0
      max := sorted.getD (data.length - 1) 0
      q1 := q1
      q3 := q3
      iqr := q3 - q1
      skewness := (data.map fun val => (val - mean) ^ 3).sum / (n * stdDev ^ 3)
      kurtosis := (data.map fun val => (val - mean) ^ 4).sum / (n * stdDev ^ 4) - 3 }

/-- Source `getZScore`: fixed lookup table, any other level falls back to 1.96
(the table values are non-zero, so the JS falsy-fallback is a plain default). -/
noncomputable def getZScore (confidenceLevel : ℝ) : ℝ :=
  if confidenceLevel = 0.9 then 1.645
  else if confidenceLevel = 0.95 then 1.96
  else if confidenceLevel = 0.99 then 2.576
  else 1.96

/-- IEEE/JS division restricted to the shapes this module produces: `0 / 0`
is NaN, modelled as `none`; any other quotient is the real value.  (A
non-zero numerator over a zero denominator would be an IEEE infinity, but it
cannot arise below: the only zero denominator is `Math.sqrt 0` for empty
data, whose paired numerator `stdDev` is then also 0.) -/
noncomputable def jsDivNaN (a b : ℝ) : Option ℝ :=
  if b = 0 ∧ a = 0 then none else some (a / b)

/-- Source `calculateConfidenceInterval` (source default level: 0.95).  The
standard error `stats.stdDev / Math.sqrt(n)` is `0 / 0 = NaN` in JS when the
data is empty; NaN then poisons `marginOfError` and both bounds, and every
comparison against those fields is false.  A NaN-poisoned run is modelled as
`none`; otherwise the real-valued record is returned. -/
noncomputable def calculateConfidenceInterval (data : List ℝ) (confidenceLevel : ℝ) :
    Option ConfidenceInterval :=
  let stats := calculateBasicStats data
  let n : ℝ := data.length
  match jsDivNaN stats.stdDev (Real.sqrt n) with
  | none => none
  | some se =>
      let zScore := getZScore confidenceLevel
      let marginOfError := zScore * se
      some { mean := stats.mean
             lowerBound := stats.mean - marginOfError
             upperBound := stats.mean + marginOfError
             confidenceLevel := confidenceLevel
             marginOfError := marginOfError }

/-- The continued-fraction while-loop of the source `incompleteBeta`: state
`(i, f, d)`, run while `|f - d| > 1e-10 && i < 100`; each pass sets `d := f`
and applies the two convergent updates.  The source variable `c = 1` is never
read.  The fuel (101) exceeds the iteration cap, so it never cuts the loop
short.  Lean division-by-zero returns 0 where IEEE would give an infinity;
every evaluation performed below stays away from zero denominators. -/
noncomputable def ibLoop (x a b : ℝ) : ℕ → ℕ → ℝ → ℝ → ℝ
  | 0, _, f, _ => f
  | fuel + 1, i, f, d =>
      if |f - d| > 1e-10 ∧ i < 100 then
        let m : ℝ := (i : ℝ) / 2
        let num1 := m * (b - m) * x / ((a + 2 * m) * (a + 2 * m + 1))
        let f1 := 1 + num1 / f
        let num2 := -((a + m) * (a + b + m) * x) / ((a + 2 * m + 1) * (a + 2 * m + 2))
        let f2 := 1 + num2 / f1
        ibLoop x a b fuel (i + 1) f2 f
      else f

/-- Source `incompleteBeta`.  The front factor
`Math.exp(a * Math.log(x) + b * Math.log(1 - x))` is `x ^ a * (1 - x) ^ b`
(real power), matching the IEEE evaluation also at the endpoints `x = 0` and
`x = 1`, where `Math.log 0 = -Infinity` makes the JS expression exactly 0. -/
noncomputable def incompleteBeta (x a b : ℝ) : ℝ :=
  if x < 0 then 0
  else if x > 1 then 1
  else
    let front := x ^ a * (1 - x) ^ b
    let f := ibLoop x a b 101 0 1 0
    front / a / f

/-- Source `tCDF`: incomplete-beta form with shapes `(df/2, 0.5)`. -/
noncomputable def tCDF (t df : ℝ) : ℝ :=
  let x := df / (df + t * t)
  incompleteBeta x (df / 2) 0.5 / 2

/-- Source `fCDF`: incomplete-beta form with shapes `(df1/2, df2/2)`. -/
noncomputable def fCDF (f df1 df2 : ℝ) : ℝ :=
  let x := df1 * f / (df1 * f + df2)
  incompleteBeta x (df1 / 2) (df2 / 2)

/-- Source `chiSquareCDF`: incomplete-beta form with shapes `(df/2, 0.5)`. -/
noncomputable def chiSquareCDF (x df : ℝ) : ℝ :=
  incompleteBeta (x / 2) (df / 2) 0.5

/-- Source `independentTTest` (Welch): statistic, Welch-Satterthwaite degrees
of freedom, and two-tailed p-value `2 * (1 - tCDF(|t|, df))`. -/
noncomputable def independentTTest (data1 data2 : List ℝ) (confidenceLevel : ℝ) :
    HypothesisTestResult :=
  let stats1 := calculateBasicStats data1
  let stats2 := calculateBasicStats data2
  let n1 : ℝ := data1.length
  let n2 : ℝ := data2.length
  let se := Real.sqrt (stats1.variance / n1 + stats2.variance / n2)
  let tStatistic := (stats1.mean - stats2.mean) / se
  let df := (stats1.variance / n1 + stats2.variance / n2) ^ 2 /
    ((stats1.variance / n1) ^ 2 / (n1 - 1) + (stats2.variance / n2) ^ 2 / (n2 - 1))
  let pValue := 2 * (1 - tCDF |tStatistic| df)
  let isSignificant := decide (pValue < 1 - confidenceLevel)
  { testName := "Independent T-Test"
    testStatistic := tStatistic
    pValue := pValue
    isSignificant := isSignificant
    conclusion :=
      if isSignificant then "The difference between strategies is statistically significant"
      else "No significant difference between strategies"
    confidenceLevel := confidenceLevel }

end StatsTs

namespace HypTests

open scoped Classical

/-- Source interface `TTestResult` (rounded output fields, as in the source). -/
structure TTestResult where
  t_statistic : ℝ
  p_value : ℝ
  degrees_freedom : ℝ
  significant : Bool
  effect_size : ℝ
  interpretation : String

/-- JS `Math.round`: round half toward positive infinity. -/
noncomputable def jsRound (x : ℝ) : ℝ := (⌊x + 0.5⌋ : ℤ)

/-- The per-strategy baseline table of `generateSampleData` (its `baseValues`
record), with the `|| 50` fallback for unknown metric keys; every table value
is non-zero, so the JS falsy-fallback only fires on a missing key. -/
def baseValuesTable (strategy : StrategyType) (metric : String) : ℚ :=
  match strategy with
  | .fixedTime =>
      if metric = "waitingTime" then 47.5
      else if metric = "queueLength" then 15.25
      else if metric = "throughput" then 60
      else if metric = "efficiency" then 35
      else 50
  | .ruleBased =>
      if metric = "waitingTime" then 25.25
      else if metric = "queueLength" then 0.5
      else if metric = "throughput" then 85
      else if metric = "efficiency" then 75
      else 50
  | .rlBased =>
      if metric = "waitingTime" then 21.5
      else if metric = "queueLength" then 0.2
      else if metric = "throughput" then 95.5
      else if metric = "efficiency" then 95
      else 50

/-- The `baseValue` computed by `generateSampleData` after the optional
scenario adjustment (source lines: the `baseValues` lookup and the
`if (scenario) { ... }` block).  This rational value is the mean parameter of
the normal distribution the generator draws from. -/
def sampleBaseValue (strategy : StrategyType) (metric : String)
    (scenario : Option CustomScenario) : ℚ :=
  let baseValue := baseValuesTable strategy metric
  match scenario with
  | none => baseValue
  | some sc =>
      let avgFlow := (sc.northFlow + sc.eastFlow + sc.southFlow + sc.westFlow) / 4
      let flowMultiplier := 0.5 + avgFlow / 100 * 1.5
      let incidentMultiplier := if sc.incidentActive then 1 + sc.incidentSeverity / 200 else 1
      let peakMultiplier := if sc.peakHourActive then 1 + sc.peakHourIntensity / 200 else 1
      if metric = "waitingTime" ∨ metric = "queueLength" then
        baseValue * (flowMultiplier * incidentMultiplier * peakMultiplier)
      else
        baseValue / (flowMultiplier * incidentMultiplier * peakMultiplier)

/-- The `varianceMultiplier` record of `generateSampleData`. -/
def varianceMultiplier (strategy : StrategyType) : ℚ :=
  match strategy with
  | .fixedTime => 0.25
  | .ruleBased => 0.15
  | .rlBased => 0.08

/-- One Box-Muller normal variate from two uniform draws, as in the source
sample loop: `sqrt(-2 ln u1) * cos(2 pi u2)`. -/
noncomputable def boxMullerZ (u1 u2 : ℝ) : ℝ :=
  Real.sqrt (-2 * Real.log u1) * Real.cos (2 * Real.pi * u2)

/-- Source `generateSampleData` (default `samples = 100`): the loop pushes
`Math.max(0, baseValue + z * variance)`; the two `Math.random()` draws of
iteration `i` become `u i`. -/
noncomputable def generateSampleData (strategy : StrategyType) (metric : String)
    (scenario : Option CustomScenario) (samples : ℕ) (u : ℕ → ℝ × ℝ) : List ℝ :=
  let baseValue : ℝ := (sampleBaseValue strategy metric scenario : ℚ)
  let variance : ℝ := baseValue * ((varianceMultiplier strategy : ℚ) : ℝ)
  (List.range samples).map fun i =>
    max 0 (baseValue + boxMullerZ (u i).1 (u i).2 * variance)

/-- Source `mean` helper of HypothesisTests. -/
noncomputable def mean (data : List ℝ) : ℝ := data.sum / data.length

/-- Source `variance` helper of HypothesisTests (sample variance, divisor
`n - 1`). -/
noncomputable def variance (data : List ℝ) : ℝ :=
  let m := mean data
  (data.map fun val => (val - m) ^ 2).sum / (data.length - 1)

/-- Source `erf`: the Abramowitz-Stegun polynomial approximation. -/
noncomputable def erf (x : ℝ) : ℝ :=
  let a1 : ℝ := 0.254829592
  let a2 : ℝ := -0.284496736
  let a3 : ℝ := 1.421413741
  let a4 : ℝ := -1.453152027
  let a5 : ℝ := 1.061405429
  let p : ℝ := 0.3275911
  let sign : ℝ := if x < 0 then -1 else 1
  let x := |x|
  let t := 1 / (1 + p * x)
  let y := 1 - ((((a5 * t + a4) * t + a3) * t + a2) * t + a1) * t * Real.exp (-x * x)
  sign * y

/-- Source `tDistributionCDF`: normal approximation via `erf` for `df > 30`,
hyperbolic-tangent approximation otherwise. -/
noncomputable def tDistributionCDF (t df : ℝ) : ℝ :=
  let absT := |t|
  if df > 30 then 0.5 * (1 + erf (absT / Real.sqrt 2))
  else 0.5 + 0.5 * Real.tanh (absT / Real.sqrt (df + 1))

/-- Source `fDistributionCDF`: the crude closed form `1 - exp(-f df1/(df1+df2))`. -/
noncomputable def fDistributionCDF (f df1 df2 : ℝ) : ℝ :=
  if f < 0 then 0
  else if f = 0 then 0
  else 1 - Real.exp (-f * df1 / (df1 + df2))

/-- Source `performTTest` (Welch): raw statistic and p-value as in
`independentTTest`, but a different CDF approximation, Cohen-d effect size,
and rounded output fields. -/
noncomputable def performTTest (sample1 sample2 : List ℝ) : TTestResult :=
  let n1 : ℝ := sample1.length
  let n2 : ℝ := sample2.length
  let m1 := mean sample1
  let m2 := mean sample2
  let v1 := variance sample1
  let v2 := variance sample2
  let se := Real.sqrt (v1 / n1 + v2 / n2)
  let t_statistic := (m1 - m2) / se
  let df := (v1 / n1 + v2 / n2) ^ 2 /
    ((v1 / n1) ^ 2 / (n1 - 1) + (v2 / n2) ^ 2 / (n2 - 1))
  let p_value := 2 * (1 - tDistributionCDF |t_statistic| df)
  let pooled_std := Real.sqrt (((n1 - 1) * v1 + (n2 - 1) * v2) / (n1 + n2 - 2))
  let effect_size := |(m1 - m2) / pooled_std|
  let significant := decide (p_value < 0.05)
  let category :=
    if effect_size < 0.2 then "small"
    else if effect_size < 0.5 then "small to medium"
    else if effect_size < 0.8 then "medium"
    else "large"
  { t_statistic := jsRound (t_statistic * 1000) / 1000
    p_value := jsRound (p_value * 10000) / 10000
    degrees_freedom := jsRound df
    significant := significant
    effect_size := jsRound (effect_size * 1000) / 1000
    interpretation :=
      if significant then
        "The difference between the two strategies is statistically significant (p < 0.05). Effect size: " ++ category
      else "The difference between the two strategies is NOT statistically significant (p >= 0.05)." }

end HypTests

namespace StatsTsx

open scoped Classical

/-- The `baseValue` computed by `generateDistributionData` of the
StatisticalAnalysis component after the optional scenario adjustment; the
source block is textually identical to the one in `generateSampleData`
(same `baseValues` table, `|| 50` fallback, and multipliers). -/
def distributionBaseValue (strategy : StrategyType) (metric : String)
    (scenario : Option CustomScenario) : ℚ :=
  let baseValue := HypTests.baseValuesTable strategy metric
  match scenario with
  | none => baseValue
  | some sc =>
      let avgFlow := (sc.northFlow + sc.eastFlow + sc.southFlow + sc.westFlow) / 4
      let flowMultiplier := 0.5 + avgFlow / 100 * 1.5
      let incidentMultiplier := if sc.incidentActive then 1 + sc.incidentSeverity / 200 else 1
      let peakMultiplier := if sc.peakHourActive then 1 + sc.peakHourIntensity / 200 else 1
      if metric = "waitingTime" ∨ metric = "queueLength" then
        baseValue * (flowMultiplier * incidentMultiplier * peakMultiplier)
      else
        baseValue / (flowMultiplier * incidentMultiplier * peakMultiplier)

/-- Source `generateDistributionData`: 100 Box-Muller draws with mean
`distributionBaseValue` and variance `baseValue * varianceMultiplier`,
floored at zero. -/
noncomputable def generateDistributionData (strategy : StrategyType) (metric : String)
    (scenario : Option CustomScenario) (u : ℕ → ℝ × ℝ) : List ℝ :=
  let baseValue : ℝ := (distributionBaseValue strategy metric scenario : ℚ)
  let variance : ℝ := baseValue * ((HypTests.varianceMultiplier strategy : ℚ) : ℝ)
  (List.range 100).map fun i =>
    max 0 (baseValue + HypTests.boxMullerZ (u i).1 (u i).2 * variance)

end StatsTsx

namespace NetworkSim

/-- Non-negativity of the four directional queues of an intersection. -/
def QNonneg (i : IntersectionState) : Prop :=
  0 ≤ i.northQueue ∧ 0 ≤ i.eastQueue ∧ 0 ≤ i.southQueue ∧ 0 ≤ i.westQueue

instance (i : IntersectionState) : Decidable (QNonneg i) := by
  unfold QNonneg; infer_instance

/-- Non-negativity of the four queues and the four flow rates; this is the
inductive invariant of the simulator. -/
def QFlowInv (i : IntersectionState) : Prop :=
  QNonneg i ∧
  (0 ≤ i.northFlow ∧ 0 ≤ i.eastFlow ∧ 0 ≤ i.southFlow ∧ 0 ≤ i.westFlow)

/-- The frame/growth relation of the flow-influence pass: every field except
the queues is unchanged, and no queue decreases. -/
structure FrameGe (i j : IntersectionState) : Prop where
  id_eq : j.id = i.id
  name_eq : j.name = i.name
  x_eq : j.x = i.x
  y_eq : j.y = i.y
  northFlow_eq : j.northFlow = i.northFlow
  eastFlow_eq : j.eastFlow = i.eastFlow
  southFlow_eq : j.southFlow = i.southFlow
  westFlow_eq : j.westFlow = i.westFlow
  northSignal_eq : j.northSignal = i.northSignal
  eastSignal_eq : j.eastSignal = i.eastSignal
  southSignal_eq : j.southSignal = i.southSignal
  westSignal_eq : j.westSignal = i.westSignal
  waiting_eq : j.totalWaitingTime = i.totalWaitingTime
  throughput_eq : j.totalThroughput = i.totalThroughput
  efficiency_eq : j.efficiency = i.efficiency
  northQueue_le : i.northQueue ≤ j.northQueue
  eastQueue_le : i.eastQueue ≤ j.eastQueue
  southQueue_le : i.southQueue ≤ j.southQueue
  westQueue_le : i.westQueue ≤ j.westQueue

/-- The queue of an intersection in a given direction. -/
def dirQueue (i : IntersectionState) : Direction → ℚ
  | .north => i.northQueue
  | .east => i.eastQueue
  | .south => i.southQueue
  | .west => i.westQueue

/-- The signal of an intersection in a given direction. -/
def dirSignal (i : IntersectionState) : Direction → Signal
  | .north => i.northSignal
  | .east => i.eastSignal
  | .south => i.southSignal
  | .west => i.westSignal

/-- The queued vehicles of a single intersection, summed over the four
directions. -/
def qsum (i : IntersectionState) : ℚ :=
  i.northQueue + i.eastQueue + i.southQueue + i.westQueue

/-- Total queued vehicles over a list of intersections — the quantity the
source recomputes as `totalVehicles` after each tick. -/
def totalQ (l : List IntersectionState) : ℚ :=
  (l.map qsum).sum

/-- A fresh intersection as produced by `initializeNetwork` at cell (0,0)
with zero flows; used as a concrete test state. -/
def i00 : IntersectionState :=
  { id := "intersection_0_0"
    name := "Intersection (1, 1)"
    x := 0
    y := 0
    northFlow := 0
    eastFlow := 0
    southFlow := 0
    westFlow := 0
    northQueue := 0
    eastQueue := 0
    southQueue := 0
    westQueue := 0
    northSignal := .red
    eastSignal := .green
    southSignal := .red
    westSignal := .green
    totalWaitingTime := 0
    totalThroughput := 0
    efficiency := 0 }

/-- A minimal concrete configuration for the purity and invariant tests. -/
def cfgDet : SimulationConfig :=
  { gridSize := 1
    simulationTime := 1
    strategy := .ruleBased
    trafficIntensity := 1
    incidentEnabled := false
    incidentLocation := none }

/-- A minimal concrete network state holding the single intersection `i00`. -/
def sDet : NetworkState :=
  { intersections := [i00]
    connections := []
    time := 0
    totalVehicles := 0
    networkEfficiency := 0
    averageWaitingTime := 0 }

/-- Source intersection A of the flow-influence counterexample: green north
signal with a (physically impossible, but type-permitted) negative queue. -/
def negA : IntersectionState :=
  { i00 with id := "A", northSignal := .green, northQueue := -10 }

/-- Destination intersection B of the flow-influence counterexample. -/
def negB : IntersectionState :=
  { i00 with id := "B" }

/-- The single north connection from A to B used by the flow-influence
counterexample and witness, with the flowInfluence 0.3 of the source. -/
def connAB : NetworkConnection :=
  { fromId := "A", toId := "B", direction := .north, flowInfluence := 0.3 }

/-- Intersection A with a positive green-north queue (for the witness). -/
def posA : IntersectionState :=
  { i00 with id := "A", northSignal := .green, northQueue := 10 }

/-- A concrete 2x2 configuration inside the grid sizes of claim C2. -/
def cfg2 : SimulationConfig :=
  { gridSize := 2
    simulationTime := 5
    strategy := .fixedTime
    trafficIntensity := 0.5
    incidentEnabled := false
    incidentLocation := none }

end NetworkSim

/-- The all-flows-zero, no-incident, no-peak-hour scenario of claim C3. -/
def zeroScenario : CustomScenario :=
  { name := "Zero Flows"
    northFlow := 0
    eastFlow := 0
    southFlow := 0
    westFlow := 0
    incidentActive := false
    incidentSeverity := 0
    incidentLocation := "N"
    peakHourActive := false
    peakHourIntensity := 0
    congestionThreshold := 70 }

open NetworkSim

/-- C8: `calculateBasicStats` applied to the empty list returns the record
with every field (mean, median, stdDev, variance, min, max, q1, q3, iqr,
skewness, kurtosis) equal to zero; the embedding is total, so no error is
raised on the empty input. -/
theorem c8_calculateBasicStats_empty :
    StatsTs.calculateBasicStats ([] : List ℝ) =
      { mean := 0, median := 0, stdDev := 0, variance := 0, min := 0, max := 0,
        q1 := 0, q3 := 0, iqr := 0, skewness := 0, kurtosis := 0 } := rfl

/-- Frame lemmas: `updateSignalStrategy` only writes the four signal fields; every other
field of the intersection is returned unchanged (one lemma per field). -/
theorem uss_id (i : IntersectionState) (s : Strategy) (ns ew : ℚ) :
    (updateSignalStrategy i s ns ew).id = i.id := by
  cases s <;> simp only [updateSignalStrategy] <;> split <;> rfl

theorem uss_name (i : IntersectionState) (s : Strategy) (ns ew : ℚ) :
    (updateSignalStrategy i s ns ew).name = i.name := by
  cases s <;> simp only [updateSignalStrategy] <;> split <;> rfl

theorem uss_x (i : IntersectionState) (s : Strategy) (ns ew : ℚ) :
    (updateSignalStrategy i s ns ew).x = i.x := by
  cases s <;> simp only [updateSignalStrategy] <;> split <;> rfl

theorem uss_y (i : IntersectionState) (s : Strategy) (ns ew : ℚ) :
    (updateSignalStrategy i s ns ew).y = i.y := by
  cases s <;> simp only [updateSignalStrategy] <;> split <;> rfl

theorem uss_northFlow (i : IntersectionState) (s : Strategy) (ns ew : ℚ) :
    (updateSignalStrategy i s ns ew).northFlow = i.northFlow := by
  cases s <;> simp only [updateSignalStrategy] <;> split <;> rfl

theorem uss_eastFlow (i : IntersectionState) (s : Strategy) (ns ew : ℚ) :
    (updateSignalStrategy i s ns ew).eastFlow = i.eastFlow := by
  cases s <;> simp only [updateSignalStrategy] <;> split <;> rfl

theorem uss_southFlow (i : IntersectionState) (s : Strategy) (ns ew : ℚ) :
    (updateSignalStrategy i s ns ew).southFlow = i.southFlow := by
  cases s <;> simp only [updateSignalStrategy] <;> split <;> rfl

theorem uss_westFlow (i : IntersectionState) (s : Strategy) (ns ew : ℚ) :
    (updateSignalStrategy i s ns ew).westFlow = i.westFlow := by
  cases s <;> simp only [updateSignalStrategy] <;> split <;> rfl

theorem uss_northQueue (i : IntersectionState) (s : Strategy) (ns ew : ℚ) :
    (updateSignalStrategy i s ns ew).northQueue = i.northQueue := by
  cases s <;> simp only [updateSignalStrategy] <;> split <;> rfl

theorem uss_eastQueue (i : IntersectionState) (s : Strategy) (ns ew : ℚ) :
    (updateSignalStrategy i s ns ew).eastQueue = i.eastQueue := by
  cases s <;> simp only [updateSignalStrategy] <;> split <;> rfl

theorem uss_southQueue (i : IntersectionState) (s : Strategy) (ns ew : ℚ) :
    (updateSignalStrategy i s ns ew).southQueue = i.southQueue := by
  cases s <;> simp only [updateSignalStrategy] <;> split <;> rfl

theorem uss_westQueue (i : IntersectionState) (s : Strategy) (ns ew : ℚ) :
    (updateSignalStrategy i s ns ew).westQueue = i.westQueue := by
  cases s <;> simp only [updateSignalStrategy] <;> split <;> rfl

theorem uss_waiting (i : IntersectionState) (s : Strategy) (ns ew : ℚ) :
    (updateSignalStrategy i s ns ew).totalWaitingTime = i.totalWaitingTime := by
  cases s <;> simp only [updateSignalStrategy] <;> split <;> rfl

theorem uss_throughput (i : IntersectionState) (s : Strategy) (ns ew : ℚ) :
    (updateSignalStrategy i s ns ew).totalThroughput = i.totalThroughput := by
  cases s <;> simp only [updateSignalStrategy] <;> split <;> rfl

theorem uss_efficiency (i : IntersectionState) (s : Strategy) (ns ew : ℚ) :
    (updateSignalStrategy i s ns ew).efficiency = i.efficiency := by
  cases s <;> simp only [updateSignalStrategy] <;> split <;> rfl

/-- The green axis chosen by the fixed-time branch, as a function of the
accumulated waiting-time counter. -/
theorem uss_fixed_time_axis (i : IntersectionState) (ns ew : ℚ) :
    (updateSignalStrategy i .fixedTime ns ew).northSignal =
      (if (⌊i.totalWaitingTime / 30⌋ : ℤ) % 2 = 0 then Signal.green else Signal.red) ∧
    (updateSignalStrategy i .fixedTime ns ew).eastSignal =
      (if (⌊i.totalWaitingTime / 30⌋ : ℤ) % 2 = 0 then Signal.red else Signal.green) := by
  simp only [updateSignalStrategy]
  split <;> simp_all

/-- C4: the fixed-time branch of `updateSignalStrategy` does NOT read the
simulation tick count (the function has no time input at all); the green axis
is `Math.floor(totalWaitingTime / 30) % 2`.  Two states that agree on
everything except the cumulative `totalWaitingTime` counter — in particular
two states at the same tick — are sent to opposite green axes, and the state
with `totalWaitingTime = 29` keeps north-south green while `35` flips to
east-west, so the alternation is 30 units of accumulated waiting time, not 30
ticks. -/
theorem c4_fixed_time_axis_from_totalWaitingTime :
    (updateSignalStrategy i00 .fixedTime 0 0).northSignal = Signal.green ∧
    (updateSignalStrategy i00 .fixedTime 0 0).eastSignal = Signal.red ∧
    (updateSignalStrategy { i00 with totalWaitingTime := 29 } .fixedTime 0 0).northSignal
      = Signal.green ∧
    (updateSignalStrategy { i00 with totalWaitingTime := 35 } .fixedTime 0 0).northSignal
      = Signal.red ∧
    (updateSignalStrategy { i00 with totalWaitingTime := 35 } .fixedTime 0 0).eastSignal
      = Signal.green := by
  have h0 : ((⌊(0 : ℚ) / 30⌋ : ℤ) % 2 = 0) := by norm_num
  have h29 : ((⌊(29 : ℚ) / 30⌋ : ℤ) % 2 = 0) := by norm_num [Int.floor_eq_zero_iff]
  have h35 : ((⌊(35 : ℚ) / 30⌋ : ℤ) = 1) := by norm_num [Int.floor_eq_iff]
  refine ⟨?_, ?_, ?_, ?_, ?_⟩
  · rw [(uss_fixed_time_axis i00 0 0).1]; simp [i00, h0]
  · rw [(uss_fixed_time_axis i00 0 0).2]; simp [i00, h0]
  · rw [(uss_fixed_time_axis _ 0 0).1]; simp [i00, h29]
  · rw [(uss_fixed_time_axis _ 0 0).1]; simp [i00, h35]
  · rw [(uss_fixed_time_axis _ 0 0).2]; simp [i00, h35]

/-- C7 counterexample: `simulateNetworkStep` is not determined by the
`(state, config, connections)` triple alone — the same triple under two
different streams of `Math.random` draws produces different output states
(the exogenous-arrival lines add `random() * trafficIntensity * 5`). -/
theorem c7_randomness_counterexample :
    simulateNetworkStep sDet cfgDet [] (fun _ => 0) ≠
      simulateNetworkStep sDet cfgDet [] (fun _ => 1/2) := by
  intro h
  have h2 := congrArg
    (fun st : NetworkState => (st.intersections.getD 0 i00).northFlow) h
  simp only [simulateNetworkStep, applyNetworkFlowInfluence, List.foldl_nil,
    stepIntersections, simulateIntersectionStep, List.getD_cons_zero,
    uss_northFlow] at h2
  norm_num [sDet, cfgDet, i00] at h2

/-- C7 (amended): the computations are deterministic once the random draws
are part of the input: equal (state, config, connections, random stream)
inputs give equal `simulateNetworkStep` outputs, and equal (strategy, metric,
scenario, sample count, uniform draws) inputs give equal `generateSampleData`
outputs. -/
theorem c7_deterministic_with_randomness :
    (∀ (s1 s2 : NetworkState) (c1 c2 : SimulationConfig)
        (conn1 conn2 : List NetworkConnection) (r1 r2 : ℕ → ℚ),
        s1 = s2 → c1 = c2 → conn1 = conn2 → r1 = r2 →
        simulateNetworkStep s1 c1 conn1 r1 = simulateNetworkStep s2 c2 conn2 r2) ∧
    (∀ (st1 st2 : StrategyType) (m1 m2 : String) (sc1 sc2 : Option CustomScenario)
        (n1 n2 : ℕ) (u1 u2 : ℕ → ℝ × ℝ),
        st1 = st2 → m1 = m2 → sc1 = sc2 → n1 = n2 → u1 = u2 →
        HypTests.generateSampleData st1 m1 sc1 n1 u1 =
          HypTests.generateSampleData st2 m2 sc2 n2 u2) := by
  constructor
  · intro s1 s2 c1 c2 conn1 conn2 r1 r2 hs hc hconn hr
    subst hs; subst hc; subst hconn; subst hr; rfl
  · intro st1 st2 m1 m2 sc1 sc2 n1 n2 u1 u2 h1 h2 h3 h4 h5
    subst h1; subst h2; subst h3; subst h4; subst h5; rfl

/-- C7 witness: the determinism theorem applied at a concrete state, config,
connection list and random stream. -/
theorem c7_deterministic_with_randomness_witness :
    simulateNetworkStep sDet cfgDet [] (fun _ => 0) =
      simulateNetworkStep sDet cfgDet [] (fun _ => 0) :=
  c7_deterministic_with_randomness.1 sDet sDet cfgDet cfgDet [] []
    (fun _ => 0) (fun _ => 0) rfl rfl rfl rfl

/-- C3 counterexample: with every directional flow 0 and both flags off, the
scenario flow multiplier is `0.5 + (0/100)*1.5 = 0.5`, not 1, so the
generators do NOT reproduce the unmodified per-strategy baseline: the
Fixed-time waitingTime baseline 47.5 becomes 23.75.  The last two conjuncts
evaluate `generateSampleData` itself on uniform draws `(1, 0)` (for which the
Box-Muller variate is 0, so every sample equals the distribution mean). -/
theorem c3_zero_scenario_counterexample :
    HypTests.sampleBaseValue .fixedTime "waitingTime" (some zeroScenario) = 23.75 ∧
    HypTests.sampleBaseValue .fixedTime "waitingTime" none = 47.5 ∧
    StatsTsx.distributionBaseValue .fixedTime "waitingTime" (some zeroScenario) = 23.75 ∧
    StatsTsx.distributionBaseValue .fixedTime "waitingTime" none = 47.5 ∧
    (23.75 : ℚ) ≠ 47.5 ∧
    HypTests.generateSampleData .fixedTime "waitingTime" (some zeroScenario) 1
      (fun _ => (1, 0)) = [23.75] ∧
    HypTests.generateSampleData .fixedTime "waitingTime" none 1
      (fun _ => (1, 0)) = [47.5] := by
  have hz : HypTests.boxMullerZ 1 0 = 0 := by
    simp [HypTests.boxMullerZ]
  have h1 : HypTests.sampleBaseValue .fixedTime "waitingTime" (some zeroScenario) = 23.75 := by
    norm_num [HypTests.sampleBaseValue, HypTests.baseValuesTable, zeroScenario]
  have h2 : HypTests.sampleBaseValue .fixedTime "waitingTime" none = 47.5 := by
    norm_num [HypTests.sampleBaseValue, HypTests.baseValuesTable]
  refine ⟨h1, h2, ?_, ?_, by norm_num, ?_, ?_⟩
  · norm_num [StatsTsx.distributionBaseValue, HypTests.baseValuesTable, zeroScenario]
  · norm_num [StatsTsx.distributionBaseValue, HypTests.baseValuesTable]
  · simp only [HypTests.generateSampleData, hz, h1]
    norm_num [List.range_succ, max_eq_right]
  · simp only [HypTests.generateSampleData, hz, h2]
    norm_num [List.range_succ, max_eq_right]

/-- C3 (amended): a scenario with all four flows 0 and both flags off scales
the per-strategy baseline by the flow multiplier 0.5: the distribution mean
is half the baseline for waitingTime/queueLength and double the baseline
(division by 0.5) for every other metric, in both generators; the unmodified
baseline is produced only when no scenario is supplied. -/
theorem c3_zero_scenario_scales_baseline (strategy : StrategyType) (metric : String)
    (sc : CustomScenario) (hn : sc.northFlow = 0) (he : sc.eastFlow = 0)
    (hs : sc.southFlow = 0) (hw : sc.westFlow = 0)
    (hi : sc.incidentActive = false) (hp : sc.peakHourActive = false) :
    HypTests.sampleBaseValue strategy metric (some sc) =
      (if metric = "waitingTime" ∨ metric = "queueLength" then (0.5 : ℚ) else 2) *
        HypTests.sampleBaseValue strategy metric none ∧
    StatsTsx.distributionBaseValue strategy metric (some sc) =
      (if metric = "waitingTime" ∨ metric = "queueLength" then (0.5 : ℚ) else 2) *
        StatsTsx.distributionBaseValue strategy metric none := by
  constructor
  · norm_num [HypTests.sampleBaseValue, hn, he, hs, hw, hi, hp]
    split_ifs <;> ring
  · norm_num [StatsTsx.distributionBaseValue, HypTests.sampleBaseValue, hn, he, hs, hw, hi, hp]
    split_ifs <;> ring

/-- C3 witness: the scaling theorem applied at the RL-based strategy, the
throughput metric and the concrete all-zero scenario. -/
theorem c3_zero_scenario_scales_baseline_witness :
    HypTests.sampleBaseValue .rlBased "throughput" (some zeroScenario) =
      (if "throughput" = "waitingTime" ∨ "throughput" = "queueLength" then (0.5 : ℚ) else 2) *
        HypTests.sampleBaseValue .rlBased "throughput" none ∧
    StatsTsx.distributionBaseValue .rlBased "throughput" (some zeroScenario) =
      (if "throughput" = "waitingTime" ∨ "throughput" = "queueLength" then (0.5 : ℚ) else 2) *
        StatsTsx.distributionBaseValue .rlBased "throughput" none :=
  c3_zero_scenario_scales_baseline .rlBased "throughput" zeroScenario rfl rfl rfl rfl rfl rfl

/-- The standard deviation computed by `calculateBasicStats` is a real square
root (or the 0 of the empty branch), hence non-negative. -/
theorem calculateBasicStats_stdDev_nonneg (data : List ℝ) :
    0 ≤ (StatsTs.calculateBasicStats data).stdDev := by
  unfold StatsTs.calculateBasicStats
  split
  · norm_num
  · exact Real.sqrt_nonneg _

/-- Every value of the `getZScore` lookup (including the fallback) is
positive. -/
theorem getZScore_pos (confidenceLevel : ℝ) : 0 < StatsTs.getZScore confidenceLevel := by
  unfold StatsTs.getZScore
  split_ifs <;> norm_num

/-- C9 counterexample: the claim quantifies over EVERY input vector, but on
the empty vector the standard error is `0 / Math.sqrt 0 = 0 / 0 = NaN` in
JS, so `marginOfError`, `lowerBound` and `upperBound` are NaN and
`lowerBound ≤ mean ≤ upperBound` is false.  In the embedding the
NaN-poisoned run is `none`: no real-valued record satisfying the bounds is
returned at all. -/
theorem c9_empty_nan_counterexample :
    StatsTs.calculateConfidenceInterval ([] : List ℝ) 0.95 = none ∧
    ¬ ∃ ci : StatsTs.ConfidenceInterval,
        StatsTs.calculateConfidenceInterval ([] : List ℝ) 0.95 = some ci ∧
        ci.lowerBound ≤ ci.mean ∧ ci.mean ≤ ci.upperBound := by
  have hsd : (StatsTs.calculateBasicStats ([] : List ℝ)).stdDev = 0 := rfl
  have h : StatsTs.calculateConfidenceInterval ([] : List ℝ) 0.95 = none := by
    unfold StatsTs.calculateConfidenceInterval StatsTs.jsDivNaN
    dsimp only
    rw [if_pos ⟨by simp, hsd⟩]
  refine ⟨h, ?_⟩
  rintro ⟨ci, hci, -⟩
  rw [h] at hci
  cases hci

/-- C9 (amended): for every NON-EMPTY sample vector and every confidence
level, `calculateConfidenceInterval` returns a record (no NaN arises) whose
bounds satisfy `lowerBound ≤ mean ≤ upperBound`; equivalently its margin of
error `zScore * (stdDev / sqrt n)` is non-negative.  On the empty vector the
standard error is `0/0` (NaN) and the property fails. -/
theorem c9_confidence_interval_bounds (data : List ℝ) (confidenceLevel : ℝ)
    (hne : data.length ≠ 0) :
    (StatsTs.calculateConfidenceInterval data confidenceLevel).isSome = true ∧
    ((StatsTs.calculateConfidenceInterval data confidenceLevel).getD StatsTs.emptyCI).lowerBound ≤
      ((StatsTs.calculateConfidenceInterval data confidenceLevel).getD StatsTs.emptyCI).mean ∧
    ((StatsTs.calculateConfidenceInterval data confidenceLevel).getD StatsTs.emptyCI).mean ≤
      ((StatsTs.calculateConfidenceInterval data confidenceLevel).getD StatsTs.emptyCI).upperBound ∧
    0 ≤ ((StatsTs.calculateConfidenceInterval data confidenceLevel).getD
      StatsTs.emptyCI).marginOfError := by
  have hb : (0:ℝ) < Real.sqrt (data.length : ℝ) :=
    Real.sqrt_pos.mpr (by exact_mod_cast Nat.pos_of_ne_zero hne)
  have hse : StatsTs.jsDivNaN (StatsTs.calculateBasicStats data).stdDev
      (Real.sqrt (data.length : ℝ)) =
      some ((StatsTs.calculateBasicStats data).stdDev / Real.sqrt (data.length : ℝ)) := by
    unfold StatsTs.jsDivNaN
    rw [if_neg]
    rintro ⟨h1, -⟩
    exact hb.ne' h1
  have hm : 0 ≤ StatsTs.getZScore confidenceLevel *
      ((StatsTs.calculateBasicStats data).stdDev / Real.sqrt (data.length : ℝ)) :=
    mul_nonneg (getZScore_pos confidenceLevel).le
      (div_nonneg (calculateBasicStats_stdDev_nonneg data) (Real.sqrt_nonneg _))
  unfold StatsTs.calculateConfidenceInterval
  simp only [hse, Option.getD_some, Option.isSome_some]
  exact ⟨trivial, by linarith, by linarith, hm⟩

/-- C9 witness: the amended bounds theorem applied to the concrete non-empty
sample `[1,2,3]` at confidence level 0.95. -/
theorem c9_confidence_interval_bounds_witness :
    (StatsTs.calculateConfidenceInterval [(1:ℝ), 2, 3] 0.95).isSome = true ∧
    ((StatsTs.calculateConfidenceInterval [(1:ℝ), 2, 3] 0.95).getD StatsTs.emptyCI).lowerBound ≤
      ((StatsTs.calculateConfidenceInterval [(1:ℝ), 2, 3] 0.95).getD StatsTs.emptyCI).mean ∧
    ((StatsTs.calculateConfidenceInterval [(1:ℝ), 2, 3] 0.95).getD StatsTs.emptyCI).mean ≤
      ((StatsTs.calculateConfidenceInterval [(1:ℝ), 2, 3] 0.95).getD StatsTs.emptyCI).upperBound ∧
    0 ≤ ((StatsTs.calculateConfidenceInterval [(1:ℝ), 2, 3] 0.95).getD
      StatsTs.emptyCI).marginOfError :=
  c9_confidence_interval_bounds [(1:ℝ), 2, 3] 0.95 (by norm_num)

/-- Length of a flatMap over `List.range` as a `Finset.range` sum. -/
theorem len_flatMap_range {α : Type} (f : ℕ → List α) (n : ℕ) :
    ((List.range n).flatMap f).length = ∑ i ∈ Finset.range n, (f i).length := by
  induction n with
  | zero => simp
  | succ k ih => simp [List.range_succ, Finset.sum_range_succ, ih]

/-- Count of positive indices below `g`. -/
theorem sum_ite_pos (g : ℕ) :
    (∑ y ∈ Finset.range g, if 0 < y then 1 else 0) = g - 1 := by
  induction g with
  | zero => simp
  | succ k ih =>
    rw [Finset.sum_range_succ, ih]
    rcases Nat.eq_zero_or_pos k with rfl | hk
    · simp
    · rw [if_pos hk]; omega

/-- Count of indices below both `g` and `m`. -/
theorem sum_ite_lt (g m : ℕ) :
    (∑ y ∈ Finset.range g, if y < m then 1 else 0) = min g m := by
  induction g with
  | zero => simp
  | succ k ih =>
    rw [Finset.sum_range_succ, ih]
    by_cases h : k < m
    · rw [if_pos h]; omega
    · rw [if_neg h]; omega

/-- C6: `createNetworkConnections g` produces exactly `2 * g * (g-1) * 2`
directed connections for every grid size `g ≥ 2`; for `g = 2` these are 8
directed edges that pair up into 4 bidirectional adjacencies: the edge list
has no duplicates, no self-loops, and contains the reverse of each edge. -/
theorem c6_connection_count (g : ℕ) (hg : 2 ≤ g) :
    (createNetworkConnections g).length = 2 * g * (g - 1) * 2 ∧
    (createNetworkConnections 2).length = 8 ∧
    (∀ c ∈ createNetworkConnections 2, c.fromId ≠ c.toId ∧
      ∃ c2 ∈ createNetworkConnections 2, c2.fromId = c.toId ∧ c2.toId = c.fromId) ∧
    ((createNetworkConnections 2).map fun c => (c.fromId, c.toId)).Nodup := by
  refine ⟨?_, by rfl, by decide, by decide⟩
  unfold createNetworkConnections
  simp only [len_flatMap_range, List.length_append, apply_ite List.length,
    List.length_singleton, List.length_nil, Finset.sum_add_distrib,
    Finset.sum_const, Finset.card_range, smul_eq_mul, sum_ite_pos, sum_ite_lt,
    ← Finset.mul_sum]
  have hmin : min g (g - 1) = g - 1 := min_eq_right (Nat.sub_le g 1)
  rw [hmin]
  ring

/-- C6 witness: the count theorem applied at the concrete grid size 3. -/
theorem c6_connection_count_witness :
    (createNetworkConnections 3).length = 2 * 3 * (3 - 1) * 2 :=
  (c6_connection_count 3 (by norm_num)).1

/-- Mean of the concrete sample `[1,2,3]` under `calculateBasicStats`. -/
theorem cbs123_mean : (StatsTs.calculateBasicStats [(1:ℝ), 2, 3]).mean = 2 := by
  unfold StatsTs.calculateBasicStats
  rw [if_neg (by norm_num)]
  dsimp only
  norm_num

/-- Population variance of the concrete sample `[1,2,3]` (divisor `n = 3`). -/
theorem cbs123_variance : (StatsTs.calculateBasicStats [(1:ℝ), 2, 3]).variance = 2/3 := by
  unfold StatsTs.calculateBasicStats
  rw [if_neg (by norm_num)]
  dsimp only
  norm_num

/-- At the right endpoint `x = 1` the front factor of `incompleteBeta` is
`1 ^ a * 0 ^ b = 0` (the IEEE `exp(b * log 0) = exp(-inf) = 0`), so the
function returns 0 there — even though it returns 1 for every `x > 1`. -/
theorem incompleteBeta_one : StatsTs.incompleteBeta 1 2 0.5 = 0 := by
  unfold StatsTs.incompleteBeta
  rw [if_neg (by norm_num), if_neg (by norm_num)]
  dsimp only
  rw [sub_self, Real.one_rpow, Real.zero_rpow (by norm_num : (0.5:ℝ) ≠ 0)]
  simp

/-- Evaluation `tCDF(0, 4) = incompleteBeta(1, 2, 0.5) / 2 = 0`: the t-CDF evaluates to
0 at the centre of the distribution instead of 1/2. -/
theorem tCDF_zero_four : StatsTs.tCDF 0 4 = 0 := by
  unfold StatsTs.tCDF
  rw [show (4:ℝ) / (4 + 0 * 0) = 1 by norm_num, show (4:ℝ) / 2 = 2 by norm_num]
  simp only [incompleteBeta_one]
  norm_num

/-- Mean of `[1,2,3]` under the HypothesisTests `mean` helper. -/
theorem ht_mean123 : HypTests.mean [(1:ℝ), 2, 3] = 2 := by
  norm_num [HypTests.mean]

/-- Sample variance of `[1,2,3]` (divisor `n - 1 = 2`). -/
theorem ht_variance123 : HypTests.variance [(1:ℝ), 2, 3] = 1 := by
  norm_num [HypTests.variance, HypTests.mean]

/-- The erf/tanh t-CDF of HypothesisTests is exactly 1/2 at `t = 0` (for
`df = 4` the tanh branch applies and `tanh 0 = 0`). -/
theorem tDistributionCDF_zero_four : HypTests.tDistributionCDF 0 4 = 0.5 := by
  unfold HypTests.tDistributionCDF
  rw [if_neg (by norm_num)]
  rw [abs_zero, zero_div, Real.tanh_zero]
  norm_num

/-- C1: on the identical non-constant samples `[1,2,3]` and `[1,2,3]` the
Welch statistic is 0 in both implementations, but the two p-values disagree
with the claimed value 1: `independentTTest` (statisticalAnalysis.ts) returns
`pValue = 2 * (1 - tCDF(0, 4)) = 2` — not a probability — because its
`incompleteBeta(1, a, b)` front factor collapses to 0, while `performTTest`
(HypothesisTests.tsx) returns exactly `t = 0, p = 1` as the claim states. -/
theorem c1_ttest_identical_samples :
    (StatsTs.independentTTest [(1:ℝ), 2, 3] [(1:ℝ), 2, 3] 0.95).testStatistic = 0 ∧
    (StatsTs.independentTTest [(1:ℝ), 2, 3] [(1:ℝ), 2, 3] 0.95).pValue = 2 ∧
    (HypTests.performTTest [(1:ℝ), 2, 3] [(1:ℝ), 2, 3]).t_statistic = 0 ∧
    (HypTests.performTTest [(1:ℝ), 2, 3] [(1:ℝ), 2, 3]).p_value = 1 := by
  refine ⟨?_, ?_, ?_, ?_⟩
  · simp only [StatsTs.independentTTest, cbs123_mean, cbs123_variance]
    norm_num
  · simp only [StatsTs.independentTTest, cbs123_mean, cbs123_variance]
    norm_num [tCDF_zero_four]
  · simp only [HypTests.performTTest, ht_mean123, ht_variance123]
    norm_num [HypTests.jsRound]
  · simp only [HypTests.performTTest, ht_mean123, ht_variance123]
    norm_num [tDistributionCDF_zero_four, HypTests.jsRound, Int.floor_eq_iff]

/-- At `x = 2e-10` the continued-fraction loop exits after a single pass
(the first convergent moves `f` by `5 * 2e-10 / 12 < 1e-10`), with final
value `1 - 5 * 2e-10 / 12`. -/
theorem ibLoop_small : StatsTs.ibLoop (2e-10) 2 0.5 101 0 1 0 = 1 - 5 * 2e-10 / 12 := by
  rw [show (101:ℕ) = 100 + 1 from rfl, StatsTs.ibLoop]
  rw [if_pos (by norm_num)]
  rw [show (100:ℕ) = 99 + 1 from rfl, StatsTs.ibLoop]
  rw [if_neg (by norm_num [abs_le])]
  norm_num

/-- C5: the source `incompleteBeta` is NOT monotonically non-decreasing in
its first argument over `[0,1]` for the shape parameters `(a, b) = (2, 0.5)`
used by `tCDF` at `df = 4`: its value at the interior point `x = 2e-10` is
strictly positive while its value at `x = 1` is 0 (the front factor
`1 ^ a * 0 ^ b` collapses), so it strictly decreases on `[2e-10, 1]`; the
last conjunct exhibits how `tCDF` reaches exactly this boundary evaluation. -/
theorem c5_incompleteBeta_not_monotone :
    (0:ℝ) ≤ 2e-10 ∧ (2e-10:ℝ) ≤ 1 ∧
    StatsTs.incompleteBeta 1 2 0.5 < StatsTs.incompleteBeta (2e-10) 2 0.5 ∧
    StatsTs.incompleteBeta 1 2 0.5 = 0 ∧
    StatsTs.tCDF 0 4 = 0 := by
  refine ⟨by norm_num, by norm_num, ?_, incompleteBeta_one, tCDF_zero_four⟩
  rw [incompleteBeta_one]
  unfold StatsTs.incompleteBeta
  rw [if_neg (by norm_num), if_neg (by norm_num)]
  dsimp only
  rw [ibLoop_small]
  have hfront : 0 < (2e-10:ℝ) ^ (2:ℝ) * (1 - 2e-10) ^ (0.5:ℝ) :=
    mul_pos (Real.rpow_pos_of_pos (by norm_num) _)
      (Real.rpow_pos_of_pos (by norm_num) _)
  have hf : (0:ℝ) < 1 - 5 * 2e-10 / 12 := by norm_num
  positivity

/-- The relation `FrameGe` is reflexive. -/
theorem frameGe_refl (i : IntersectionState) : FrameGe i i :=
  ⟨rfl, rfl, rfl, rfl, rfl, rfl, rfl, rfl, rfl, rfl, rfl, rfl, rfl, rfl, rfl,
    le_rfl, le_rfl, le_rfl, le_rfl⟩

/-- The relation `FrameGe` is transitive. -/
theorem frameGe_trans {i j k : IntersectionState} (h1 : FrameGe i j) (h2 : FrameGe j k) :
    FrameGe i k :=
  ⟨h2.id_eq.trans h1.id_eq, h2.name_eq.trans h1.name_eq, h2.x_eq.trans h1.x_eq,
    h2.y_eq.trans h1.y_eq, h2.northFlow_eq.trans h1.northFlow_eq,
    h2.eastFlow_eq.trans h1.eastFlow_eq, h2.southFlow_eq.trans h1.southFlow_eq,
    h2.westFlow_eq.trans h1.westFlow_eq, h2.northSignal_eq.trans h1.northSignal_eq,
    h2.eastSignal_eq.trans h1.eastSignal_eq, h2.southSignal_eq.trans h1.southSignal_eq,
    h2.westSignal_eq.trans h1.westSignal_eq, h2.waiting_eq.trans h1.waiting_eq,
    h2.throughput_eq.trans h1.throughput_eq, h2.efficiency_eq.trans h1.efficiency_eq,
    h1.northQueue_le.trans h2.northQueue_le, h1.eastQueue_le.trans h2.eastQueue_le,
    h1.southQueue_le.trans h2.southQueue_le, h1.westQueue_le.trans h2.westQueue_le⟩

/-- The relation `FrameGe` transports queue non-negativity forward. -/
theorem frameGe_qnonneg {i j : IntersectionState} (hq : QNonneg i) (h : FrameGe i j) :
    QNonneg j :=
  ⟨hq.1.trans h.northQueue_le, hq.2.1.trans h.eastQueue_le,
    hq.2.2.1.trans h.southQueue_le, hq.2.2.2.trans h.westQueue_le⟩

/-- Members of the right list of a `Forall₂` are related to some member of the
left list. -/
theorem forall₂_mem_right {R : IntersectionState → IntersectionState → Prop}
    {l l' : List IntersectionState} (h : List.Forall₂ R l l') :
    ∀ j ∈ l', ∃ i ∈ l, R i j := by
  induction h with
  | nil => intro j hj; simp at hj
  | cons hab hrest ih =>
    intro j hj
    rcases List.mem_cons.mp hj with rfl | hj
    · exact ⟨_, List.mem_cons_self _ _, hab⟩
    · obtain ⟨i, hi, hij⟩ := ih j hj
      exact ⟨i, List.mem_cons_of_mem _ hi, hij⟩

/-- Transitivity of `Forall₂ FrameGe`. -/
theorem forall₂_frameGe_trans {l1 l2 l3 : List IntersectionState}
    (h12 : List.Forall₂ FrameGe l1 l2) (h23 : List.Forall₂ FrameGe l2 l3) :
    List.Forall₂ FrameGe l1 l3 := by
  induction h12 generalizing l3 with
  | nil => cases h23; exact List.Forall₂.nil
  | cons hab hrest ih =>
    cases h23 with
    | cons hbc hrest2 => exact List.Forall₂.cons (frameGe_trans hab hbc) (ih hrest2)

/-- A successful `mapLookup` returns a member of the list. -/
theorem mapLookup_mem : ∀ {l : List IntersectionState} {key : String} {i : IntersectionState},
    mapLookup l key = some i → i ∈ l := by
  intro l
  induction l with
  | nil => intro key i h; simp [mapLookup] at h
  | cons a rest ih =>
    intro key i h
    rw [mapLookup] at h
    cases hr : mapLookup rest key with
    | some j =>
      rw [hr] at h
      cases h
      exact List.mem_cons_of_mem _ (ih hr)
    | none =>
      rw [hr] at h
      split_ifs at h with ha
      cases h
      exact List.mem_cons_self _ _

/-- Failure of `mapLookup` means no element carries the key. -/
theorem mapLookup_none_any : ∀ {l : List IntersectionState} {key : String},
    mapLookup l key = none → l.any (fun j => j.id = key) = false := by
  intro l
  induction l with
  | nil => intro key _; rfl
  | cons a rest ih =>
    intro key h
    rw [mapLookup] at h
    cases hr : mapLookup rest key with
    | some j => rw [hr] at h; cases h
    | none =>
      rw [hr] at h
      split_ifs at h with ha
      simp [List.any_cons, ha, ih hr]

/-- Success of `mapLookup` means some element carries the key. -/
theorem mapLookup_some_any : ∀ {l : List IntersectionState} {key : String}
    {i : IntersectionState}, mapLookup l key = some i →
    l.any (fun j => j.id = key) = true := by
  intro l
  induction l with
  | nil => intro key i h; simp [mapLookup] at h
  | cons a rest ih =>
    intro key i h
    rw [mapLookup] at h
    cases hr : mapLookup rest key with
    | some j =>
      rw [hr] at h
      simp [List.any_cons, ih hr]
    | none =>
      rw [hr] at h
      split_ifs at h with ha
      simp [List.any_cons, ha]

/-- Two `Forall₂ FrameGe` lists resolve `mapLookup` in lockstep: either both fail
or both succeed with `FrameGe`-related results. -/
theorem mapLookup_rel {l l' : List IntersectionState} (h : List.Forall₂ FrameGe l l')
    (key : String) :
    (mapLookup l key = none ∧ mapLookup l' key = none) ∨
    (∃ i j, mapLookup l key = some i ∧ mapLookup l' key = some j ∧ FrameGe i j) := by
  induction h with
  | nil => left; exact ⟨rfl, rfl⟩
  | cons hab hrest ih =>
    rw [mapLookup, mapLookup]
    rcases ih with ⟨h1, h2⟩ | ⟨i, j, h1, h2, hij⟩
    · rw [h1, h2, hab.id_eq]
      split_ifs with hkey
      · right; exact ⟨_, _, rfl, rfl, hab⟩
      · left; exact ⟨rfl, rfl⟩
    · rw [h1, h2]
      right
      exact ⟨i, j, rfl, rfl, hij⟩

/-- The update `updateLastId` relates pointwise to the original list whenever the update
function itself is `FrameGe`-increasing on members. -/
theorem forall₂_updateLastId {l : List IntersectionState} {key : String}
    {f : IntersectionState → IntersectionState}
    (hf : ∀ i ∈ l, FrameGe i (f i)) :
    List.Forall₂ FrameGe l (updateLastId l key f) := by
  induction l with
  | nil => exact List.Forall₂.nil
  | cons a rest ih =>
    rw [updateLastId]
    split_ifs with h1 h2
    · exact List.Forall₂.cons (frameGe_refl a)
        (ih fun i hi => hf i (List.mem_cons_of_mem _ hi))
    · exact List.Forall₂.cons (hf a (List.mem_cons_self _ _))
        (List.forall₂_same.mpr fun i _ => frameGe_refl i)
    · exact List.Forall₂.cons (frameGe_refl a)
        (ih fun i hi => hf i (List.mem_cons_of_mem _ hi))

/-- When `mapLookup` resolves `key` to `t`, the list splits as
`l₁ ++ t :: l₂` and `updateLastId` rewrites exactly that occurrence. -/
theorem updateLastId_decomp : ∀ {l : List IntersectionState} {key : String}
    {t : IntersectionState}, mapLookup l key = some t →
    ∀ f : IntersectionState → IntersectionState,
    ∃ l₁ l₂, l = l₁ ++ t :: l₂ ∧ updateLastId l key f = l₁ ++ f t :: l₂ := by
  intro l
  induction l with
  | nil => intro key t h f; simp [mapLookup] at h
  | cons a rest ih =>
    intro key t h f
    rw [mapLookup] at h
    cases hr : mapLookup rest key with
    | some j =>
      rw [hr] at h
      cases h
      obtain ⟨l₁, l₂, hdec, hupd⟩ := ih hr f
      refine ⟨a :: l₁, l₂, by rw [hdec]; rfl, ?_⟩
      rw [updateLastId, if_pos (mapLookup_some_any hr), hupd]
      rfl
    | none =>
      rw [hr] at h
      split_ifs at h with ha
      cases h
      refine ⟨[], rest, rfl, ?_⟩
      rw [updateLastId, if_neg ?_, if_pos ha]
      · rfl
      · rw [mapLookup_none_any hr]
        simp

/-- One connection pass only grows queues and keeps every other field, given
non-negative queues and a non-negative flow-influence coefficient. -/
theorem applyConnection_forall₂ {l : List IntersectionState} {c : NetworkConnection}
    (hq : ∀ i ∈ l, QNonneg i) (hfl : 0 ≤ c.flowInfluence) :
    List.Forall₂ FrameGe l (applyConnection l c) := by
  unfold applyConnection
  cases hF : mapLookup l c.fromId with
  | none =>
    simp only [hF]
    exact List.forall₂_same.mpr fun i _ => frameGe_refl i
  | some fI =>
    cases hT : mapLookup l c.toId with
    | none =>
      simp only [hF, hT]
      exact List.forall₂_same.mpr fun i _ => frameGe_refl i
    | some tI =>
      simp only [hF, hT]
      have hfq := hq fI (mapLookup_mem hF)
      cases c.direction with
      | north =>
        dsimp only
        split_ifs with hsig
        · have hδ : 0 ≤ min (fI.northQueue * c.flowInfluence) 5 :=
            le_min (mul_nonneg hfq.1 hfl) (by norm_num)
          exact forall₂_updateLastId fun i _ =>
            ⟨rfl, rfl, rfl, rfl, rfl, rfl, rfl, rfl, rfl, rfl, rfl, rfl, rfl, rfl, rfl,
              le_rfl, le_rfl, le_add_of_nonneg_right hδ, le_rfl⟩
        · exact List.forall₂_same.mpr fun i _ => frameGe_refl i
      | east =>
        dsimp only
        split_ifs with hsig
        · have hδ : 0 ≤ min (fI.eastQueue * c.flowInfluence) 5 :=
            le_min (mul_nonneg hfq.2.1 hfl) (by norm_num)
          exact forall₂_updateLastId fun i _ =>
            ⟨rfl, rfl, rfl, rfl, rfl, rfl, rfl, rfl, rfl, rfl, rfl, rfl, rfl, rfl, rfl,
              le_rfl, le_rfl, le_rfl, le_add_of_nonneg_right hδ⟩
        · exact List.forall₂_same.mpr fun i _ => frameGe_refl i
      | south =>
        dsimp only
        split_ifs with hsig
        · have hδ : 0 ≤ min (fI.southQueue * c.flowInfluence) 5 :=
            le_min (mul_nonneg hfq.2.2.1 hfl) (by norm_num)
          exact forall₂_updateLastId fun i _ =>
            ⟨rfl, rfl, rfl, rfl, rfl, rfl, rfl, rfl, rfl, rfl, rfl, rfl, rfl, rfl, rfl,
              le_add_of_nonneg_right hδ, le_rfl, le_rfl, le_rfl⟩
        · exact List.forall₂_same.mpr fun i _ => frameGe_refl i
      | west =>
        dsimp only
        split_ifs with hsig
        · have hδ : 0 ≤ min (fI.westQueue * c.flowInfluence) 5 :=
            le_min (mul_nonneg hfq.2.2.2 hfl) (by norm_num)
          exact forall₂_updateLastId fun i _ =>
            ⟨rfl, rfl, rfl, rfl, rfl, rfl, rfl, rfl, rfl, rfl, rfl, rfl, rfl, rfl, rfl,
              le_rfl, le_add_of_nonneg_right hδ, le_rfl, le_rfl⟩
        · exact List.forall₂_same.mpr fun i _ => frameGe_refl i

/-- The relation `FrameGe` preserves the signal seen in any direction. -/
theorem frameGe_dirSignal {i j : IntersectionState} (h : FrameGe i j) (d : Direction) :
    dirSignal j d = dirSignal i d := by
  cases d with
  | north => exact h.northSignal_eq
  | east => exact h.eastSignal_eq
  | south => exact h.southSignal_eq
  | west => exact h.westSignal_eq

/-- The relation `FrameGe` only grows the queue seen in any direction. -/
theorem frameGe_dirQueue_le {i j : IntersectionState} (h : FrameGe i j) (d : Direction) :
    dirQueue i d ≤ dirQueue j d := by
  cases d with
  | north => exact h.northQueue_le
  | east => exact h.eastQueue_le
  | south => exact h.southQueue_le
  | west => exact h.westQueue_le

/-- Folding `applyConnection` over any connection list only grows queues and
keeps the frame, provided queues start non-negative and all coefficients are
non-negative. -/
theorem foldl_applyConnection_forall₂ :
    ∀ (conns : List NetworkConnection) (l : List IntersectionState),
      (∀ i ∈ l, QNonneg i) → (∀ c ∈ conns, 0 ≤ c.flowInfluence) →
      List.Forall₂ FrameGe l (conns.foldl applyConnection l) := by
  intro conns
  induction conns with
  | nil =>
    intro l hq _
    simp only [List.foldl_nil]
    exact List.forall₂_same.mpr fun i _ => frameGe_refl i
  | cons c cs ih =>
    intro l hq hfl
    rw [List.foldl_cons]
    have h1 := applyConnection_forall₂ hq (hfl c (List.mem_cons_self _ _))
    have hq2 : ∀ j ∈ applyConnection l c, QNonneg j := by
      intro j hj
      obtain ⟨i, hi, hij⟩ := forall₂_mem_right h1 j hj
      exact frameGe_qnonneg (hq i hi) hij
    exact forall₂_frameGe_trans h1
      (ih _ hq2 fun c2 hc2 => hfl c2 (List.mem_cons_of_mem _ hc2))

/-- The pass `applyNetworkFlowInfluence` only grows queues and keeps every other field
of every intersection. -/
theorem applyNetworkFlowInfluence_forall₂ {l : List IntersectionState}
    {conns : List NetworkConnection} (hq : ∀ i ∈ l, QNonneg i)
    (hfl : ∀ c ∈ conns, 0 ≤ c.flowInfluence) :
    List.Forall₂ FrameGe l (applyNetworkFlowInfluence l conns) :=
  foldl_applyConnection_forall₂ conns l hq hfl

/-- The total queued-vehicle count is monotone along `Forall₂ FrameGe`. -/
theorem totalQ_mono {l l' : List IntersectionState} (h : List.Forall₂ FrameGe l l') :
    totalQ l ≤ totalQ l' := by
  induction h with
  | nil => exact le_rfl
  | cons hab hrest ih =>
    simp only [totalQ, List.map_cons, List.sum_cons]
    exact add_le_add
      (add_le_add (add_le_add (add_le_add hab.northQueue_le hab.eastQueue_le)
        hab.southQueue_le) hab.westQueue_le) ih

/-- Exact accounting of one connection pass: when both endpoints resolve and
the source signal in the connection direction is green, the pass adds exactly
`min(sourceQueue * flowInfluence, 5)` to the total queued-vehicle count (all
of it on the destination opposite queue). -/
theorem applyConnection_totalQ {l : List IntersectionState} {c : NetworkConnection}
    {fI tI : IntersectionState} (hF : mapLookup l c.fromId = some fI)
    (hT : mapLookup l c.toId = some tI)
    (hgreen : dirSignal fI c.direction = Signal.green) :
    totalQ (applyConnection l c) =
      totalQ l + min (dirQueue fI c.direction * c.flowInfluence) 5 := by
  unfold applyConnection
  simp only [hF, hT]
  cases hd : c.direction with
  | north =>
    rw [hd] at hgreen
    simp only [dirSignal] at hgreen
    dsimp only
    rw [if_pos hgreen]
    obtain ⟨l₁, l₂, hdec, hupd⟩ := updateLastId_decomp hT
      (fun t => { t with southQueue := t.southQueue + min (fI.northQueue * c.flowInfluence) 5 })
    rw [hupd, hdec]
    simp only [dirQueue]
    simp only [totalQ, qsum, List.map_append, List.sum_append, List.map_cons, List.sum_cons]
    ring
  | east =>
    rw [hd] at hgreen
    simp only [dirSignal] at hgreen
    dsimp only
    rw [if_pos hgreen]
    obtain ⟨l₁, l₂, hdec, hupd⟩ := updateLastId_decomp hT
      (fun t => { t with westQueue := t.westQueue + min (fI.eastQueue * c.flowInfluence) 5 })
    rw [hupd, hdec]
    simp only [dirQueue]
    simp only [totalQ, qsum, List.map_append, List.sum_append, List.map_cons, List.sum_cons]
    ring
  | south =>
    rw [hd] at hgreen
    simp only [dirSignal] at hgreen
    dsimp only
    rw [if_pos hgreen]
    obtain ⟨l₁, l₂, hdec, hupd⟩ := updateLastId_decomp hT
      (fun t => { t with northQueue := t.northQueue + min (fI.southQueue * c.flowInfluence) 5 })
    rw [hupd, hdec]
    simp only [dirQueue]
    simp only [totalQ, qsum, List.map_append, List.sum_append, List.map_cons, List.sum_cons]
    ring
  | west =>
    rw [hd] at hgreen
    simp only [dirSignal] at hgreen
    dsimp only
    rw [if_pos hgreen]
    obtain ⟨l₁, l₂, hdec, hupd⟩ := updateLastId_decomp hT
      (fun t => { t with eastQueue := t.eastQueue + min (fI.westQueue * c.flowInfluence) 5 })
    rw [hupd, hdec]
    simp only [dirQueue]
    simp only [totalQ, qsum, List.map_append, List.sum_append, List.map_cons, List.sum_cons]
    ring

/-- When some connection of the list resolves both endpoints and its source
has a green signal with a strictly positive queue in the connection direction,
the whole flow-influence pass strictly increases the total queued-vehicle
count (all coefficients being the 0.3 the source creates). -/
theorem applyNetworkFlowInfluence_strict {l : List IntersectionState}
    {conns : List NetworkConnection} (hq : ∀ i ∈ l, QNonneg i)
    (hfl : ∀ c ∈ conns, c.flowInfluence = 0.3)
    (c : NetworkConnection) (hc : c ∈ conns) (fI : IntersectionState)
    (hF : mapLookup l c.fromId = some fI) (hT : (mapLookup l c.toId).isSome = true)
    (hgreen : dirSignal fI c.direction = Signal.green)
    (hpos : 0 < dirQueue fI c.direction) :
    totalQ l < totalQ (applyNetworkFlowInfluence l conns) := by
  obtain ⟨pre, post, rfl⟩ := List.append_of_mem hc
  have hc03 : c.flowInfluence = 0.3 := hfl c (by simp)
  have hflpre : ∀ c2 ∈ pre, 0 ≤ c2.flowInfluence := fun c2 h2 => by
    rw [hfl c2 (by simp [h2])]; norm_num
  have hflpost : ∀ c2 ∈ post, 0 ≤ c2.flowInfluence := fun c2 h2 => by
    rw [hfl c2 (by simp [h2])]; norm_num
  unfold applyNetworkFlowInfluence
  rw [List.foldl_append, List.foldl_cons]
  have h01 : List.Forall₂ FrameGe l (pre.foldl applyConnection l) :=
    foldl_applyConnection_forall₂ pre l hq hflpre
  have hq1 : ∀ j ∈ pre.foldl applyConnection l, QNonneg j := by
    intro j hj
    obtain ⟨i, hi, hij⟩ := forall₂_mem_right h01 j hj
    exact frameGe_qnonneg (hq i hi) hij
  rcases mapLookup_rel h01 c.fromId with ⟨hn, _⟩ | ⟨i, j, hi, hj, hij⟩
  · rw [hF] at hn; cases hn
  rw [hF] at hi
  cases hi
  rcases mapLookup_rel h01 c.toId with ⟨hn, _⟩ | ⟨ti, tj, hti, htj, _⟩
  · rw [hn] at hT; simp at hT
  have hgreen1 : dirSignal j c.direction = Signal.green := by
    rw [frameGe_dirSignal hij c.direction]; exact hgreen
  have hstep : totalQ (pre.foldl applyConnection l) <
      totalQ (applyConnection (pre.foldl applyConnection l) c) := by
    rw [applyConnection_totalQ hj htj hgreen1]
    have hqpos : 0 < dirQueue j c.direction :=
      lt_of_lt_of_le hpos (frameGe_dirQueue_le hij c.direction)
    have hmin : 0 < min (dirQueue j c.direction * c.flowInfluence) 5 := by
      refine lt_min ?_ (by norm_num)
      rw [hc03]
      exact mul_pos hqpos (by norm_num)
    linarith
  have h12 : List.Forall₂ FrameGe (pre.foldl applyConnection l)
      (applyConnection (pre.foldl applyConnection l) c) :=
    applyConnection_forall₂ hq1 (by rw [hc03]; norm_num)
  have hq2 : ∀ i2 ∈ applyConnection (pre.foldl applyConnection l) c, QNonneg i2 := by
    intro j2 hj2
    obtain ⟨i2, hi2, hij2⟩ := forall₂_mem_right h12 j2 hj2
    exact frameGe_qnonneg (hq1 i2 hi2) hij2
  have h23 := foldl_applyConnection_forall₂ post _ hq2 hflpost
  calc totalQ l ≤ totalQ (pre.foldl applyConnection l) := totalQ_mono h01
    _ < totalQ (applyConnection (pre.foldl applyConnection l) c) := hstep
    _ ≤ _ := totalQ_mono h23

/-- C10 counterexample: with a (type-permitted) negative source queue the
flow-influence pass DECREASES the destination queue: `min(-10 * 0.3, 5) = -3`
is added to the south queue of B, so "never decreases any queue" fails for
arbitrary intersection lists.  (The simulator itself never reaches negative
queues; see the amended theorem.) -/
theorem c10_negative_queue_counterexample :
    ((applyNetworkFlowInfluence [negA, negB] [connAB]).getD 1 negA).southQueue <
      negB.southQueue := by
  have hF : mapLookup [negA, negB] "A" = some negA := rfl
  have hT : mapLookup [negA, negB] "B" = some negB := rfl
  unfold applyNetworkFlowInfluence
  rw [List.foldl_cons, List.foldl_nil]
  unfold applyConnection
  simp only [show connAB.fromId = "A" from rfl, show connAB.toId = "B" from rfl,
    show connAB.direction = Direction.north from rfl, hF, hT]
  rw [if_pos (show negA.northSignal = Signal.green from rfl)]
  rw [updateLastId, if_pos (by simp [negB, i00]),
    updateLastId, if_neg (by simp), if_pos (by simp [negB, i00])]
  simp only [List.getD_cons_succ, List.getD_cons_zero]
  norm_num [negA, negB, i00, connAB, min_def]

/-- C10 (amended): on the non-negative-queue states the simulator actually
produces (and with the 0.3 coefficients `createNetworkConnections` installs),
the flow-propagation pass only ever adds vehicles: (1) every intersection
keeps its flows, signals, waiting-time, throughput and efficiency fields and
no queue decreases (`Forall₂ FrameGe`); (2) a single connection pass with
resolvable endpoints and a green source signal adds exactly
`min(sourceQueue * flowInfluence, 5)` vehicles to the total (on the
destination opposite queue), so vehicle count is not conserved; and (3) the
pass strictly increases the total whenever some connected source is green
with a positive queue. -/
theorem c10_flow_influence_frame (l : List IntersectionState)
    (conns : List NetworkConnection) (hq : ∀ i ∈ l, QNonneg i)
    (hfl : ∀ c ∈ conns, c.flowInfluence = 0.3) :
    List.Forall₂ FrameGe l (applyNetworkFlowInfluence l conns) ∧
    (∀ c : NetworkConnection, ∀ fI tI : IntersectionState,
      mapLookup l c.fromId = some fI → mapLookup l c.toId = some tI →
      dirSignal fI c.direction = Signal.green →
      totalQ (applyConnection l c) =
        totalQ l + min (dirQueue fI c.direction * c.flowInfluence) 5) ∧
    ((∃ c ∈ conns, ∃ fI, mapLookup l c.fromId = some fI ∧
        (mapLookup l c.toId).isSome = true ∧
        dirSignal fI c.direction = Signal.green ∧ 0 < dirQueue fI c.direction) →
      totalQ l < totalQ (applyNetworkFlowInfluence l conns)) := by
  refine ⟨?_, ?_, ?_⟩
  · exact applyNetworkFlowInfluence_forall₂ hq
      (fun c hc => by rw [hfl c hc]; norm_num)
  · intro c fI tI hF hT hg2
    exact applyConnection_totalQ hF hT hg2
  · rintro ⟨c, hc, fI, hF, hT, hgr, hpos⟩
    exact applyNetworkFlowInfluence_strict hq hfl c hc fI hF hT hgr hpos

/-- C10 witness: the frame/growth theorem applied to the concrete two-node
network A (green north, queue 10) to B over the single 0.3 connection. -/
theorem c10_flow_influence_frame_witness :
    List.Forall₂ FrameGe [posA, negB]
      (applyNetworkFlowInfluence [posA, negB] [connAB]) :=
  (c10_flow_influence_frame [posA, negB] [connAB] (by decide)
    (fun c hc => by rcases List.mem_singleton.mp hc with rfl; rfl)).1

/-- One intersection tick preserves the non-negativity invariant: departures
are clamped at zero and arrivals are non-negative when the draws and the
traffic intensity are. -/
theorem simulateIntersectionStep_inv {i : IntersectionState} {cfg : SimulationConfig}
    {all : List IntersectionState} {conns : List NetworkConnection} {r1 r2 r3 r4 : ℚ}
    (hi : QFlowInv i) (h1 : 0 ≤ r1) (h2 : 0 ≤ r2) (h3 : 0 ≤ r3) (h4 : 0 ≤ r4)
    (hti : 0 ≤ cfg.trafficIntensity) :
    QFlowInv (simulateIntersectionStep i cfg all conns r1 r2 r3 r4) := by
  obtain ⟨⟨hqn, hqe, hqs, hqw⟩, hfn, hfe, hfs, hfw⟩ := hi
  have hn5 : (0:ℚ) ≤ 5 := by norm_num
  have hF1 : 0 ≤ i.northFlow + r1 * cfg.trafficIntensity * 5 :=
    add_nonneg hfn (mul_nonneg (mul_nonneg h1 hti) hn5)
  have hF2 : 0 ≤ i.eastFlow + r2 * cfg.trafficIntensity * 5 :=
    add_nonneg hfe (mul_nonneg (mul_nonneg h2 hti) hn5)
  have hF3 : 0 ≤ i.southFlow + r3 * cfg.trafficIntensity * 5 :=
    add_nonneg hfs (mul_nonneg (mul_nonneg h3 hti) hn5)
  have hF4 : 0 ≤ i.westFlow + r4 * cfg.trafficIntensity * 5 :=
    add_nonneg hfw (mul_nonneg (mul_nonneg h4 hti) hn5)
  refine ⟨⟨?_, ?_, ?_, ?_⟩, ?_, ?_, ?_, ?_⟩ <;>
    simp only [simulateIntersectionStep, uss_northQueue, uss_eastQueue, uss_southQueue,
      uss_westQueue, uss_northFlow, uss_eastFlow, uss_southFlow, uss_westFlow]
  · exact add_nonneg (le_max_left 0 _) hF1
  · exact add_nonneg (le_max_left 0 _) hF2
  · exact add_nonneg (le_max_left 0 _) hF3
  · exact add_nonneg (le_max_left 0 _) hF4
  · exact hF1
  · exact hF2
  · exact hF3
  · exact hF4

/-- The per-tick map over the intersection array preserves the invariant. -/
theorem stepIntersections_inv {cfg : SimulationConfig} {all : List IntersectionState}
    {conns : List NetworkConnection} {rnd : ℕ → ℚ} (hti : 0 ≤ cfg.trafficIntensity)
    (hrnd : ∀ n, 0 ≤ rnd n) :
    ∀ (k : ℕ) (l : List IntersectionState), (∀ i ∈ l, QFlowInv i) →
    ∀ j ∈ stepIntersections cfg all conns rnd k l, QFlowInv j := by
  intro k l
  induction l generalizing k with
  | nil => intro _ j hj; simp [stepIntersections] at hj
  | cons a rest ih =>
    intro hl j hj
    rw [stepIntersections] at hj
    rcases List.mem_cons.mp hj with rfl | hj
    · exact simulateIntersectionStep_inv (hl a (List.mem_cons_self _ _))
        (hrnd _) (hrnd _) (hrnd _) (hrnd _) hti
    · exact ih (k + 1) (fun i hi => hl i (List.mem_cons_of_mem _ hi)) j hj

/-- Freshly initialized intersections satisfy the invariant: queues start at
0 and flows are non-negative random draws scaled by 20. -/
theorem initializeNetwork_inv {g : ℕ} {rnd0 : ℕ → ℚ} (h : ∀ n, 0 ≤ rnd0 n) :
    ∀ i ∈ initializeNetwork g rnd0, QFlowInv i := by
  intro i hi
  simp only [initializeNetwork, List.mem_flatMap, List.mem_map, List.mem_range] at hi
  obtain ⟨x, hx, y, hy, rfl⟩ := hi
  exact ⟨⟨le_rfl, le_rfl, le_rfl, le_rfl⟩,
    mul_nonneg (h _) (by norm_num), mul_nonneg (h _) (by norm_num),
    mul_nonneg (h _) (by norm_num), mul_nonneg (h _) (by norm_num)⟩

/-- Every connection the grid constructor creates carries coefficient 0.3. -/
theorem createNetworkConnections_flowInfluence {g : ℕ} :
    ∀ c ∈ createNetworkConnections g, c.flowInfluence = 0.3 := by
  intro c hc
  simp only [createNetworkConnections, List.mem_flatMap, List.mem_range,
    List.mem_append] at hc
  obtain ⟨x, hx, y, hy, hc⟩ := hc
  rcases hc with ((h | h) | h) | h
  · by_cases hc2 : 0 < y
    · rw [if_pos hc2] at h
      obtain rfl := List.mem_singleton.mp h
      rfl
    · rw [if_neg hc2] at h
      simp at h
  · by_cases hc2 : x < g - 1
    · rw [if_pos hc2] at h
      obtain rfl := List.mem_singleton.mp h
      rfl
    · rw [if_neg hc2] at h
      simp at h
  · by_cases hc2 : y < g - 1
    · rw [if_pos hc2] at h
      obtain rfl := List.mem_singleton.mp h
      rfl
    · rw [if_neg hc2] at h
      simp at h
  · by_cases hc2 : 0 < x
    · rw [if_pos hc2] at h
      obtain rfl := List.mem_singleton.mp h
      rfl
    · rw [if_neg hc2] at h
      simp at h

/-- One full network tick preserves the invariant and recomputes a
non-negative `totalVehicles`. -/
theorem simulateNetworkStep_inv {s : NetworkState} {cfg : SimulationConfig}
    {conns : List NetworkConnection} {rnd : ℕ → ℚ}
    (hs : ∀ i ∈ s.intersections, QFlowInv i) (hti : 0 ≤ cfg.trafficIntensity)
    (hrnd : ∀ n, 0 ≤ rnd n) (hfl : ∀ c ∈ conns, 0 ≤ c.flowInfluence) :
    (∀ i ∈ (simulateNetworkStep s cfg conns rnd).intersections, QFlowInv i) ∧
    0 ≤ (simulateNetworkStep s cfg conns rnd).totalVehicles := by
  have hstepped : ∀ j ∈ stepIntersections cfg s.intersections conns rnd 0
      s.intersections, QFlowInv j :=
    stepIntersections_inv hti hrnd 0 s.intersections hs
  have hforall := applyNetworkFlowInfluence_forall₂
    (fun j hj => (hstepped j hj).1) hfl
  have hinf : ∀ j ∈ applyNetworkFlowInfluence
      (stepIntersections cfg s.intersections conns rnd 0 s.intersections) conns,
      QFlowInv j := by
    intro j hj
    obtain ⟨i, hi, hij⟩ := forall₂_mem_right hforall j hj
    obtain ⟨hqi, hf1, hf2, hf3, hf4⟩ := hstepped i hi
    refine ⟨frameGe_qnonneg hqi hij, ?_, ?_, ?_, ?_⟩
    · rw [hij.northFlow_eq]; exact hf1
    · rw [hij.eastFlow_eq]; exact hf2
    · rw [hij.southFlow_eq]; exact hf3
    · rw [hij.westFlow_eq]; exact hf4
  constructor
  · intro i hi
    simp only [simulateNetworkStep] at hi
    exact hinf i hi
  · simp only [simulateNetworkStep]
    apply List.sum_nonneg
    intro q hq
    simp only [List.mem_map] at hq
    obtain ⟨j, hj, rfl⟩ := hq
    obtain ⟨⟨a, b, c, d⟩, _⟩ := hinf j hj
    linarith

/-- The invariant holds along every iterated run of `simulateNetworkStep`. -/
theorem simSteps_inv {cfg : SimulationConfig} {conns : List NetworkConnection}
    {rnd : ℕ → ℕ → ℚ} {s : NetworkState}
    (hs : ∀ i ∈ s.intersections, QFlowInv i) (hsv : 0 ≤ s.totalVehicles)
    (hti : 0 ≤ cfg.trafficIntensity) (hrnd : ∀ t n, 0 ≤ rnd t n)
    (hfl : ∀ c ∈ conns, 0 ≤ c.flowInfluence) :
    ∀ ticks : ℕ, (∀ i ∈ (simSteps cfg conns rnd s ticks).intersections, QFlowInv i) ∧
      0 ≤ (simSteps cfg conns rnd s ticks).totalVehicles := by
  intro ticks
  induction ticks with
  | zero => exact ⟨hs, hsv⟩
  | succ n ih =>
    simp only [simSteps]
    exact simulateNetworkStep_inv ih.1 hti (fun k => hrnd n k) hfl

/-- C2: from the initialized network, for every grid size in 2..4, every
traffic intensity in [0,1], every strategy (the strategy field of the config
is unconstrained) and every number of ticks of `simulateNetworkStep`, all
four directional queues of every intersection stay non-negative and the
recomputed `totalVehicles` of the network never goes negative, for all
random-draw streams valued in [0,1). -/
theorem c2_reachable_queues_nonneg (cfg : SimulationConfig)
    (hg : cfg.gridSize = 2 ∨ cfg.gridSize = 3 ∨ cfg.gridSize = 4)
    (h0 : 0 ≤ cfg.trafficIntensity) (h1 : cfg.trafficIntensity ≤ 1)
    (rnd0 : ℕ → ℚ) (hrnd0 : ∀ n, 0 ≤ rnd0 n ∧ rnd0 n < 1)
    (rnd : ℕ → ℕ → ℚ) (hrnd : ∀ t n, 0 ≤ rnd t n ∧ rnd t n < 1) (ticks : ℕ) :
    (∀ i ∈ (simSteps cfg (createNetworkConnections cfg.gridSize) rnd
        (initState cfg rnd0) ticks).intersections,
      0 ≤ i.northQueue ∧ 0 ≤ i.eastQueue ∧ 0 ≤ i.southQueue ∧ 0 ≤ i.westQueue) ∧
    0 ≤ (simSteps cfg (createNetworkConnections cfg.gridSize) rnd
        (initState cfg rnd0) ticks).totalVehicles := by
  have hfl : ∀ c ∈ createNetworkConnections cfg.gridSize, 0 ≤ c.flowInfluence :=
    fun c hc => by rw [createNetworkConnections_flowInfluence c hc]; norm_num
  have hinit : ∀ i ∈ (initState cfg rnd0).intersections, QFlowInv i := by
    intro i hi
    simp only [initState] at hi
    exact initializeNetwork_inv (fun n => (hrnd0 n).1) i hi
  have h := simSteps_inv hinit (by norm_num [initState]) h0
    (fun t n => (hrnd t n).1) hfl ticks
  exact ⟨fun i hi => (h.1 i hi).1, h.2⟩

/-- C2 witness: the invariant theorem applied to the concrete 2x2 grid with
intensity 0.5 and constant draw streams 1/2, after 3 ticks. -/
theorem c2_reachable_queues_nonneg_witness :
    0 ≤ (simSteps cfg2 (createNetworkConnections cfg2.gridSize) (fun _ _ => 1/2)
        (initState cfg2 (fun _ => 1/2)) 3).totalVehicles :=
  (c2_reachable_queues_nonneg cfg2 (Or.inl rfl) (by norm_num [cfg2]) (by norm_num [cfg2])
    (fun _ => 1/2) (fun n => ⟨by norm_num, by norm_num⟩)
    (fun _ _ => 1/2) (fun t n => ⟨by norm_num, by norm_num⟩) 3).2
